import Mathlib

/-!
Verification development for the varizemed webhook service
(conversation ingestion, aggregation and handoff orchestration).

The definitions below are a shallow embedding of the Python sources:
  * `app/repositories/firestore_repo.py`  (storage repository)
  * `app/services/webhook_service.py`     (ingestion, aggregation, turn processing)
  * `app/services/cx_service.py`          (AI-backend client with retry)
  * `app/services/twilio_service.py`      (channel send with retry)

Conventions of the embedding:
  * Python dynamic values that flow through the AI-backend parameter maps
    are modelled by the tagged union `PValue` (None / bool / str / number /
    list / mapping).
  * Python dictionaries are modelled as ordered association lists with an
    insert-or-overwrite operation `dictSet` (later assignments overwrite in
    place, insertion order is preserved, as for Python dicts).
  * Firestore is modelled by the explicit state `Store`; every repository
    call threads the state.  `uuid.uuid4()` is modelled by a deterministic
    fresh-name counter carried in the state; where freshness of a generated
    id matters it appears as an explicit hypothesis.
  * Wall-clock times and durations are modelled by rationals.
  * External effects (storage writes, AI-backend calls, channel sends) are
    additionally recorded in an event trace so that theorems can speak
    about which calls a code path performs.
-/

namespace Varizemed

/-- Model of a dynamically typed Python value as it occurs in the
AI-backend parameter maps and in configuration entries. -/
inductive PValue where
  | none
  | bool (b : Bool)
  | str (s : String)
  | int (n : Int)
  | list (l : List PValue)
  | dict (d : List (String × PValue))
deriving Repr

mutual

/-- Structural equality test for `PValue` (models Python `==` on these values). -/
def PValue.beq : PValue → PValue → Bool
  | .none, .none => true
  | .bool a, .bool b => a == b
  | .str a, .str b => a == b
  | .int a, .int b => a == b
  | .list a, .list b => PValue.beqList a b
  | .dict a, .dict b => PValue.beqDict a b
  | _, _ => false

def PValue.beqList : List PValue → List PValue → Bool
  | [], [] => true
  | a :: as_, b :: bs => PValue.beq a b && PValue.beqList as_ bs
  | _, _ => false

def PValue.beqDict : List (String × PValue) → List (String × PValue) → Bool
  | [], [] => true
  | a :: as_, b :: bs => a.1 == b.1 && PValue.beq a.2 b.2 && PValue.beqDict as_ bs
  | _, _ => false

end

instance : BEq PValue := ⟨PValue.beq⟩

mutual

theorem PValue.beq_refl : (a : PValue) → PValue.beq a a = true
  | .none => rfl
  | .bool b => by simp [PValue.beq]
  | .str s => by simp [PValue.beq]
  | .int n => by simp [PValue.beq]
  | .list l => by simp [PValue.beq]; exact PValue.beqList_refl l
  | .dict d => by simp [PValue.beq]; exact PValue.beqDict_refl d

theorem PValue.beqList_refl : (l : List PValue) → PValue.beqList l l = true
  | [] => rfl
  | a :: as_ => by
      simp [PValue.beqList]
      exact ⟨PValue.beq_refl a, PValue.beqList_refl as_⟩

theorem PValue.beqDict_refl : (d : List (String × PValue)) → PValue.beqDict d d = true
  | [] => rfl
  | a :: as_ => by
      simp [PValue.beqDict]
      exact ⟨PValue.beq_refl a.2, PValue.beqDict_refl as_⟩

end

mutual

theorem PValue.eq_of_beq : {a b : PValue} → PValue.beq a b = true → a = b
  | .none, .none, _ => rfl
  | .bool _, .bool _, h => by simp [PValue.beq] at h; simp [h]
  | .str _, .str _, h => by simp [PValue.beq] at h; simp [h]
  | .int _, .int _, h => by simp [PValue.beq] at h; simp [h]
  | .list a, .list b, h => by
      simp only [PValue.beq] at h
      have := PValue.eqList_of_beq h
      simp [this]
  | .dict a, .dict b, h => by
      simp only [PValue.beq] at h
      have := PValue.eqDict_of_beq h
      simp [this]
  | .none, .bool _, h => by simp [PValue.beq] at h
  | .none, .str _, h => by simp [PValue.beq] at h
  | .none, .int _, h => by simp [PValue.beq] at h
  | .none, .list _, h => by simp [PValue.beq] at h
  | .none, .dict _, h => by simp [PValue.beq] at h
  | .bool _, .none, h => by simp [PValue.beq] at h
  | .bool _, .str _, h => by simp [PValue.beq] at h
  | .bool _, .int _, h => by simp [PValue.beq] at h
  | .bool _, .list _, h => by simp [PValue.beq] at h
  | .bool _, .dict _, h => by simp [PValue.beq] at h
  | .str _, .none, h => by simp [PValue.beq] at h
  | .str _, .bool _, h => by simp [PValue.beq] at h
  | .str _, .int _, h => by simp [PValue.beq] at h
  | .str _, .list _, h => by simp [PValue.beq] at h
  | .str _, .dict _, h => by simp [PValue.beq] at h
  | .int _, .none, h => by simp [PValue.beq] at h
  | .int _, .bool _, h => by simp [PValue.beq] at h
  | .int _, .str _, h => by simp [PValue.beq] at h
  | .int _, .list _, h => by simp [PValue.beq] at h
  | .int _, .dict _, h => by simp [PValue.beq] at h
  | .list _, .none, h => by simp [PValue.beq] at h
  | .list _, .bool _, h => by simp [PValue.beq] at h
  | .list _, .str _, h => by simp [PValue.beq] at h
  | .list _, .int _, h => by simp [PValue.beq] at h
  | .list _, .dict _, h => by simp [PValue.beq] at h
  | .dict _, .none, h => by simp [PValue.beq] at h
  | .dict _, .bool _, h => by simp [PValue.beq] at h
  | .dict _, .str _, h => by simp [PValue.beq] at h
  | .dict _, .int _, h => by simp [PValue.beq] at h
  | .dict _, .list _, h => by simp [PValue.beq] at h

theorem PValue.eqList_of_beq : {a b : List PValue} → PValue.beqList a b = true → a = b
  | [], [], _ => rfl
  | x :: xs, y :: ys, h => by
      simp only [PValue.beqList, Bool.and_eq_true] at h
      have h1 := PValue.eq_of_beq h.1
      have h2 := PValue.eqList_of_beq h.2
      simp [h1, h2]
  | [], _ :: _, h => by simp [PValue.beqList] at h
  | _ :: _, [], h => by simp [PValue.beqList] at h

theorem PValue.eqDict_of_beq : {a b : List (String × PValue)} → PValue.beqDict a b = true → a = b
  | [], [], _ => rfl
  | x :: xs, y :: ys, h => by
      simp only [PValue.beqDict, Bool.and_eq_true] at h
      have h1 : x.1 = y.1 := by
        have := h.1.1
        simpa using this
      have h2 := PValue.eq_of_beq h.1.2
      have h3 := PValue.eqDict_of_beq h.2
      cases x; cases y
      simp_all
  | [], _ :: _, h => by simp [PValue.beqDict] at h
  | _ :: _, [], h => by simp [PValue.beqDict] at h

end

instance : DecidableEq PValue := fun a b =>
  if h : PValue.beq a b = true then
    .isTrue (PValue.eq_of_beq h)
  else
    .isFalse (fun he => h (he ▸ PValue.beq_refl a))

instance : LawfulBEq PValue where
  eq_of_beq := PValue.eq_of_beq
  rfl := PValue.beq_refl _

/-! Python string primitives, implemented over the character list of a
`String` (so that they evaluate by kernel reduction on concrete inputs). -/

/-- Python `str.strip()`: drop whitespace from both ends. -/
def pyStrip (s : String) : String :=
  String.mk (((s.data.dropWhile Char.isWhitespace).reverse.dropWhile Char.isWhitespace).reverse)

/-- Python `str.lower()` / `str.casefold()` (ASCII case mapping). -/
def pyLower (s : String) : String :=
  String.mk (s.data.map Char.toLower)

/-- Python `str.startswith(p)`. -/
def pyStartsWith (s p : String) : Bool :=
  p.data.isPrefixOf s.data

/-- Splitter behind Python `str.split()` (no separator): split on runs of
whitespace, producing no empty words. -/
def pySplitWsAux : List Char → List Char → List String
  | [], acc => if acc = [] then [] else [String.mk acc.reverse]
  | c :: cs, acc =>
      if c.isWhitespace then
        if acc = [] then pySplitWsAux cs []
        else String.mk acc.reverse :: pySplitWsAux cs []
      else pySplitWsAux cs (c :: acc)

/-- Python `str.split()` with no separator. -/
def pySplitWs (s : String) : List String :=
  pySplitWsAux s.data []

/-- Occurrence test for a pattern inside a character list
(Python `pat in s`; the empty pattern is contained everywhere). -/
def listContainsSub (pat : List Char) : List Char → Bool
  | [] => pat = []
  | c :: cs => pat.isPrefixOf (c :: cs) || listContainsSub pat cs

/-- Python `pat in s` on strings. -/
def strContains (s pat : String) : Bool :=
  listContainsSub pat.data s.data

/-- Replace every occurrence of a non-empty pattern, scanning left to
right without overlap (the recursion behind Python `str.replace`); the
`skip` counter consumes the remainder of a match already emitted.  An
empty pattern leaves the input unchanged, a case no call site exercises. -/
def replaceGo (pat rep : List Char) : List Char → ℕ → List Char
  | [], _ => []
  | _ :: cs, skip + 1 => replaceGo pat rep cs skip
  | c :: cs, 0 =>
      if pat ≠ [] && pat.isPrefixOf (c :: cs) then
        rep ++ replaceGo pat rep cs (pat.length - 1)
      else c :: replaceGo pat rep cs 0

/-- Python `s.replace(pat, rep)` (all occurrences). -/
def strReplace (s pat rep : String) : String :=
  String.mk (replaceGo pat.data rep.data s.data 0)

/-- Python `bool(x)` truthiness on modelled values
(empty string / zero / empty containers / None are falsy). -/
def pvTruthy : PValue → Bool
  | .none => false
  | .bool b => b
  | .str s => s ≠ ""
  | .int n => n ≠ 0
  | .list l => l ≠ []
  | .dict d => d ≠ []

mutual

/-- `webhook_service._is_truthy`: None is falsy; a bool is itself; a string
is truthy iff its stripped, lowercased form equals `"true"`; a mapping is
truthy iff some value in it is truthy; every other type is falsy. -/
def is_truthy : PValue → Bool
  | .none => false
  | .bool b => b
  | .str s => pyLower (pyStrip s) == "true"
  | .dict d => is_truthyDict d
  | .int _ => false
  | .list _ => false

def is_truthyDict : List (String × PValue) → Bool
  | [] => false
  | kv :: rest => is_truthy kv.2 || is_truthyDict rest

end

/-- Python `a or b` for strings (left operand when truthy, i.e. non-empty). -/
def pyOrStr (a b : String) : String :=
  if a ≠ "" then a else b

/-- Python `a or b` where the left operand is an optional string
(None and the empty string are falsy). -/
def pyOrOptStr (a : Option String) (b : String) : String :=
  match a with
  | some s => pyOrStr s b
  | none => b

/-- Insert-or-overwrite on an ordered association list; mirrors assignment
`d[k] = v` on a Python dict (overwrite keeps the original position,
a fresh key is appended). -/
def dictSet {κ α : Type} [DecidableEq κ] (l : List (κ × α)) (k : κ) (v : α) :
    List (κ × α) :=
  match l with
  | [] => [(k, v)]
  | (k', v') :: rest =>
      if k' = k then (k, v) :: rest else (k', v') :: dictSet rest k v

/-- `webhook_service._normalize_for_exact_match`:
`" ".join(text.split()).casefold()` — collapse whitespace runs, lowercase. -/
def normalize_for_exact_match (text : String) : String :=
  pyLower (String.intercalate " " (pySplitWs text))

/-- `transcription_service.is_audio_media_type`: the part of the content type
before the first `";"`, stripped and lowercased, starts with `audio/` or
equals `application/ogg`. -/
def is_audio_media_type (media_type : Option String) : Bool :=
  let normalized := pyLower (pyStrip (String.mk ((media_type.getD "").data.takeWhile (fun c => c ≠ ';'))))
  pyStartsWith normalized "audio/" || normalized == "application/ogg"

/-- `webhook_service._merge_audio_transcript`: replace the `[Audio]`
placeholder by the transcript when present, else append a labelled addendum
to a non-blank body, else use the transcript alone. -/
def merge_audio_transcript (body transcript : String) : String :=
  if strContains body "[Audio]" then
    strReplace body "[Audio]" transcript
  else if pyStrip body ≠ "" then
    body ++ "\n\n[Transcricao de audio] " ++ transcript
  else transcript

/-- `webhook_service._join_bot_texts`: strip each response line, drop blank
ones, join the rest with a blank line. -/
def join_bot_texts (texts : List String) : String :=
  String.intercalate "\n\n" ((texts.map pyStrip).filter (fun s => s ≠ ""))

/-- `webhook_service.FALLBACK_STABILITY_TEXT`. -/
def FALLBACK_STABILITY_TEXT : String :=
  "Tivemos um problema de estabilidade, pode repetir sua pergunta?"

/-- Model of the configuration mapping (`app/config.py` values read through
`settings.get(...)` in the webhook service).  Boolean feature flags are
stored as the truth value the service observes (`_bool_env` in `config.py`
produces genuine booleans); text settings are strings, with `""` standing
for unset (Python-falsy) exactly as the service's `or`-chains treat them;
`DF_HANDOFF_TEXT_HINTS` is the list produced by `config._csv_casefold`. -/
structure Settings where
  featureDisableHandoff : Bool
  featureForceBotWhenHandoffDisabled : Bool
  dfHandoffParam : String
  dfHandoffTextHints : List String
  handoffDisabledText : String
  handoffAckText : String
  featureMessageAggregation : Bool
  featureAudioTranscription : Bool
  sttFallbackText : String
deriving Repr, DecidableEq

/-- Conversation document, with the fields written by
`FirestoreRepository.ensure_conversation` and by the call sites of
`update_conversation`.  Fields a fresh document does not carry
(`session_parameters`, `wa_profile_name`, `pending_since`,
`last_inbound_at`) appear with their "absent" default; timestamps are
modelled as presence flags. -/
structure Conv where
  conversation_id : String
  user_id : String
  session_id : String
  status : String
  handoff_active : Bool
  assignee : Option String
  assignee_name : Option String
  last_message_text : String
  last_in_from : Option String
  unread_for_assignee : Nat
  lock_version : Nat
  session_parameters : List (String × PValue)
  wa_profile_name : Option String
  pending_since : Bool
  last_inbound_at : Bool
deriving Repr, DecidableEq

/-- Message document as written by `FirestoreRepository.add_message_if_new`
(plus the transcription enrichment field). -/
structure Msg where
  message_id : String
  direction : String
  by_ : String
  text : String
  media_url : Option String
  media_type : Option String
  transcription : Option String
deriving Repr, DecidableEq

/-- Firestore state: conversations keyed by conversation id, messages keyed
by (conversation id, message id), plus the fresh-name counter that models
`uuid.uuid4()` draws. -/
structure Store where
  convs : List (String × Conv)
  msgs : List ((String × String) × Msg)
  fresh : Nat
deriving Repr, DecidableEq

/-- The next `str(uuid.uuid4())` the process would draw in state `st`. -/
def freshIdOf (st : Store) : String :=
  "uuid-" ++ toString st.fresh

/-- Draw a fresh identifier (models one `uuid.uuid4()` call). -/
def freshId (st : Store) : String × Store :=
  (freshIdOf st, { st with fresh := st.fresh + 1 })

/-- Association-list lookup (first match), the model of a keyed document read. -/
def alistGet {κ α : Type} [BEq κ] (l : List (κ × α)) (k : κ) : Option α :=
  match l.find? (fun kv => kv.1 == k) with
  | some kv => some kv.2
  | none => none

/-- Defaults written by `FirestoreRepository.ensure_conversation` for a new
conversation document (status `bot`, no handoff, no assignee). -/
def mkConv (conversation_id session_id : String) : Conv :=
  { conversation_id := conversation_id
    user_id := conversation_id
    session_id := session_id
    status := "bot"
    handoff_active := false
    assignee := Option.none
    assignee_name := Option.none
    last_message_text := ""
    last_in_from := Option.none
    unread_for_assignee := 0
    lock_version := 0
    session_parameters := []
    wa_profile_name := Option.none
    pending_since := false
    last_inbound_at := false }

/-- `FirestoreRepository.ensure_conversation`: return the existing document
(`existed = true`) or create it with the `bot` defaults. -/
def ensure_conversation (st : Store) (conversation_id session_id : String) :
    Conv × Bool × Store :=
  match alistGet st.convs conversation_id with
  | some c => (c, true, st)
  | none =>
      let c := mkConv conversation_id session_id
      (c, false, { st with convs := dictSet st.convs conversation_id c })

/-- The message document `add_message_if_new` writes (`msg_data`). -/
def mkMsg (message_id direction by_ text : String) (media_url media_type : Option String) : Msg :=
  { message_id := message_id
    direction := direction
    by_ := by_
    text := text
    media_url := media_url
    media_type := media_type
    transcription := Option.none }

/-- `FirestoreRepository.add_message_if_new`: an empty (Python-falsy)
message id is replaced by a fresh `uuid.uuid4()`; if a message with the
resulting id already exists the call returns `false` without mutation,
otherwise the message is persisted and the call returns `true`. -/
def add_message_if_new (st : Store) (conversation_id message_id direction by_ text : String)
    (media_url media_type : Option String) : Bool × Store :=
  let idSt : String × Store :=
    if message_id = "" then freshId st else (message_id, st)
  let mid := idSt.1
  let st1 := idSt.2
  match alistGet st1.msgs (conversation_id, mid) with
  | some _ => (false, st1)
  | none =>
      (true,
       { st1 with
         msgs := dictSet st1.msgs (conversation_id, mid)
           (mkMsg mid direction by_ text media_url media_type) })

/-- `FirestoreRepository.update_conversation` restricted to one call site:
merge the fields written by `f` into the conversation document.  (In
Firestore `set(..., merge=True)` on a missing document would create a
partial one; every call site in the service runs after
`ensure_conversation`, and the model applies the update to the blank
default in the vacuous missing case.) -/
def updateConvWith (st : Store) (conversation_id : String) (f : Conv → Conv) : Store :=
  match alistGet st.convs conversation_id with
  | some c => { st with convs := dictSet st.convs conversation_id (f c) }
  | none => { st with convs := dictSet st.convs conversation_id (f (mkConv conversation_id "")) }

/-- The field set `status="bot", handoff_active=False, assignee=None,
assignee_name=None` written both by the force-bot conversion and by the
resolved-reopen transition in `process_message_async`. -/
def applyBotReset (c : Conv) : Conv :=
  { c with
    status := "bot"
    handoff_active := false
    assignee := Option.none
    assignee_name := Option.none }

/-- The field set written by the `pending_handoff` transition in
`process_message_async` (`pending_since` is stamped). -/
def applyPendingHandoff (c : Conv) : Conv :=
  { c with
    status := "pending_handoff"
    handoff_active := false
    assignee := Option.none
    assignee_name := Option.none
    pending_since := true }

/-! ### Aggregation buffer (debounce) model

`webhook_service._add_to_aggregation_buffer` / `_calculate_next_delay` /
`_process_aggregated_messages`.  Wall-clock instants are rationals; the two
`time.time()` reads taken inside one locked section (append and delay
computation) are identified. -/

/-- The three debounce settings, as the floats the service reads
(`MESSAGE_DEBOUNCE_INITIAL_SECONDS` / `_EXTEND_SECONDS` / `_MAX_SECONDS`,
defaults 5.0 / 3.0 / 10.0). -/
structure DebounceCfg where
  initialSeconds : ℚ
  extendSeconds : ℚ
  maxSeconds : ℚ
deriving Repr, DecidableEq

/-- `webhook_service._calculate_next_delay`: with `elapsed = now - first_ts`,
return the minimal flush tick `0.1` once the hard cap is exhausted, else
`min(initial, max - elapsed)` while the buffer holds at most one message,
else `min(extend, max - elapsed)`. -/
def calculate_next_delay (cfg : DebounceCfg) (numMessages : ℕ) (now first_ts : ℚ) : ℚ :=
  let elapsed := now - first_ts
  let remaining_to_max := cfg.maxSeconds - elapsed
  if remaining_to_max ≤ 0 then 1/10
  else if numMessages ≤ 1 then min cfg.initialSeconds remaining_to_max
  else min cfg.extendSeconds remaining_to_max

/-- Observable state of one conversation's aggregation buffer: message
count, arrival time of the first buffered message, and the instant the
(single) pending timer is due to fire. -/
structure BufState where
  count : ℕ
  first_ts : ℚ
  fireAt : ℚ
deriving Repr, DecidableEq

/-- One `_add_to_aggregation_buffer` step at arrival time `t`: append the
message (recording `first_ts` on the first one), cancel the pending timer
and schedule a new one `calculate_next_delay` seconds from now. -/
def bufferAdd (cfg : DebounceCfg) (s : Option BufState) (t : ℚ) : BufState :=
  match s with
  | Option.none =>
      { count := 1, first_ts := t, fireAt := t + calculate_next_delay cfg 1 t t }
  | some b =>
      { count := b.count + 1
        first_ts := b.first_ts
        fireAt := t + calculate_next_delay cfg (b.count + 1) t b.first_ts }

/-- Buffer state after messages arriving at `t0 :: rest` were all added to
the same buffer (each next arrival lands before the pending timer fires). -/
def bufferRun (cfg : DebounceCfg) (t0 : ℚ) (rest : List ℚ) : BufState :=
  rest.foldl (fun b t => bufferAdd cfg (some b) t) (bufferAdd cfg Option.none t0)

/-- The premise that a sequence of arrivals starting from buffer state `b`
really is buffered together: each arrival lands strictly before the
currently pending timer fires (so rescheduling cancels that timer instead
of racing its flush). -/
def bufferedTogether (cfg : DebounceCfg) : BufState → List ℚ → Prop
  | _, [] => True
  | b, t :: ts => t < b.fireAt ∧ bufferedTogether cfg (bufferAdd cfg (some b) t) ts

/-- Body aggregation in `_process_aggregated_messages`: strip each buffered
body, drop the blank ones; `none` when nothing valid remains (the turn is
dropped), the single remaining body alone, or the bodies joined with the
literal `" | "` separator in arrival order. -/
def aggregate_body (bodies : List String) : Option String :=
  match (bodies.map pyStrip).filter (fun s => s ≠ "") with
  | [] => Option.none
  | [b] => some b
  | bs => some (String.intercalate " | " bs)

/-- The synthetic id of an aggregated turn
(`f"agg:{inbound_id}:{len(messages)}"`). -/
def aggregated_id (inbound_id : String) (messageCount : ℕ) : String :=
  "agg:" ++ inbound_id ++ ":" ++ toString messageCount

/-! ### Handoff detection (`_handoff_from_cx`) -/

/-- `_handoff_from_cx`'s text arm for one response line: some configured
hint is non-empty (Python `if hint:`) and equals the normalized line. -/
def hint_match (hints : List String) (text : String) : Bool :=
  hints.any (fun hint => hint ≠ "" && normalize_for_exact_match text == hint)

/-- `webhook_service._handoff_from_cx` with the response abstracted to its
text lines and its flattened parameter map (`cx_all_params_dict`): a hint
match on some line, or — when `allow_param` — the configured
`DF_HANDOFF_PARAM` key is non-empty and its value in the parameter map is
`_is_truthy`. -/
def handoff_from_cx (texts : List String) (params : List (String × PValue))
    (allow_param : Bool) (st : Settings) : Bool :=
  texts.any (hint_match st.dfHandoffTextHints) ||
  (allow_param && st.dfHandoffParam ≠ "" &&
    (match alistGet params st.dfHandoffParam with
     | some v => is_truthy v
     | Option.none => false))

mutual

/-- Truthiness as the claim describes it once amended: boolean `true`, a
string whose whitespace-trimmed content equals `"true"` case-insensitively,
or a mapping containing some truthy value; nothing else. -/
def truthySpec : PValue → Bool
  | .bool true => true
  | .str s => pyLower (pyStrip s) == "true"
  | .dict d => truthySpecDict d
  | _ => false

def truthySpecDict : List (String × PValue) → Bool
  | [] => false
  | kv :: rest => truthySpec kv.2 || truthySpecDict rest

end

mutual

/-- Truthiness exactly as the claim states it (no whitespace trimming of
the string before the case-insensitive comparison with `"true"`). -/
def truthyClaimed : PValue → Bool
  | .bool true => true
  | .str s => pyLower s == "true"
  | .dict d => truthyClaimedDict d
  | _ => false

def truthyClaimedDict : List (String × PValue) → Bool
  | [] => false
  | kv :: rest => truthyClaimed kv.2 || truthyClaimedDict rest

end

/-- Handoff detection as the (amended) specification describes it:
(a) some response text line, whitespace-normalized and case-folded, exactly
equals one of the configured hint phrases, or (b) the conversation status
is `bot`, a handoff-parameter name is configured, and the response's
parameter map carries that name with a truthy value. -/
def detectSpec (texts : List String) (params : List (String × PValue))
    (status : String) (st : Settings) : Bool :=
  texts.any (fun t =>
    st.dfHandoffTextHints.any (fun hint => normalize_for_exact_match t == hint)) ||
  (status == "bot" && st.dfHandoffParam ≠ "" &&
    (match alistGet params st.dfHandoffParam with
     | some v => truthySpec v
     | Option.none => false))

/-- Handoff detection with the truthiness predicate exactly as the claim
states it (used to exhibit where the unamended claim fails). -/
def detectClaimed (texts : List String) (params : List (String × PValue))
    (status : String) (st : Settings) : Bool :=
  texts.any (fun t =>
    st.dfHandoffTextHints.any (fun hint => normalize_for_exact_match t == hint)) ||
  (status == "bot" && st.dfHandoffParam ≠ "" &&
    (match alistGet params st.dfHandoffParam with
     | some v => truthyClaimed v
     | Option.none => false))

/-! ### Retrying dispatchers

`cx_service.detect_intent_text` (AI-backend call, lines 145–176) and
`twilio_service._post_with_retry` (channel send).  An exception is modelled
by `GErr` with its transient/permanent classification
(`_TRANSIENT_DF_ERRORS` membership, resp. `_is_transient_post_error`); the
attempt outcomes and the random jitter draws are oracle functions of the
attempt index.  Each loop returns the overall outcome together with the
list of back-off waits it slept. -/

/-- An exception raised by an outbound call, with its classification. -/
structure GErr where
  transient : Bool
  id : ℕ
deriving Repr, DecidableEq

/-- Outcome of one `df_client.detect_intent` attempt: a response
(abstracted to its text lines and flattened parameter map) or an exception. -/
inductive CxAttempt where
  | ok (texts : List String) (params : List (String × PValue))
  | exc (e : GErr)

/-- Retry loop of `detect_intent_text` starting at 0-indexed attempt `i`:
a non-transient exception propagates at once (the `except` clause catches
only `_TRANSIENT_DF_ERRORS`); a transient one on the last attempt breaks
and is re-raised; otherwise the loop sleeps
`0.4 * 2 ** i + random.uniform(0, 0.25)` seconds and retries. -/
def cxRetryLoop (outcome : ℕ → CxAttempt) (jitter : ℕ → ℚ) (attempts : ℕ) (i : ℕ) :
    Except GErr (List String × List (String × PValue)) × List ℚ :=
  match outcome i with
  | .ok texts params => (Except.ok (texts, params), [])
  | .exc e =>
      if e.transient then
        if h : i + 1 ≥ attempts then (Except.error e, [])
        else
          let rest := cxRetryLoop outcome jitter attempts (i + 1)
          (rest.1, ((2/5) * 2 ^ i + jitter i) :: rest.2)
      else (Except.error e, [])
termination_by attempts - i
decreasing_by omega

/-- `detect_intent_text`'s retry behaviour: the attempt count is clamped to
at least 1 (`attempts = max(1, int(attempts or 1))`) and the loop starts at
attempt 0. -/
def detect_intent_retry (outcome : ℕ → CxAttempt) (jitter : ℕ → ℚ) (attempts : ℕ) :
    Except GErr (List String × List (String × PValue)) × List ℚ :=
  cxRetryLoop outcome jitter (max 1 attempts) 0

/-- Outcome of one `session.post` attempt in `_post_with_retry` (the raised
exceptions are `requests.RequestException`s; `e.transient` is
`_is_transient_post_error e`). -/
inductive PostAttempt where
  | ok
  | exc (e : GErr)

/-- Retry loop of `twilio_service._post_with_retry` starting at 1-indexed
`attempt`: an exception that is not transient, or one on the final attempt,
is re-raised at once; otherwise the loop sleeps
`backoff * 2 ** (attempt - 1)` seconds (no jitter) and retries. -/
def postRetryLoop (outcome : ℕ → PostAttempt) (backoff : ℚ) (attempts : ℕ) (attempt : ℕ) :
    Except GErr Unit × List ℚ :=
  match outcome attempt with
  | .ok => (Except.ok (), [])
  | .exc e =>
      if h : ¬ e.transient = true ∨ attempt ≥ attempts then (Except.error e, [])
      else
        let rest := postRetryLoop outcome backoff attempts (attempt + 1)
        (rest.1, (backoff * 2 ^ (attempt - 1)) :: rest.2)
termination_by attempts - attempt
decreasing_by omega

/-- `twilio_service._get_retry_settings`: attempts clamped to at least 1,
back-off base clamped to at least 0 (defaults 2 and 0.3 come from
configuration). -/
def get_retry_settings (attempts : Int) (backoff : ℚ) : ℕ × ℚ :=
  ((max 1 attempts).toNat, max 0 backoff)

/-- `_post_with_retry` as called by `send_whatsapp_text`: the loop starts
at attempt 1 with the clamped settings. -/
def post_with_retry (outcome : ℕ → PostAttempt) (attempts : Int) (backoff : ℚ) :
    Except GErr Unit × List ℚ :=
  let s := get_retry_settings attempts backoff
  postRetryLoop outcome s.2 s.1 1

/-! ### Turn processor and webhook handler

`webhook_service.process_message_async` and `webhook_service.handle_webhook`,
with external effects recorded in an event trace.  The AI-backend call, the
transcription result and the channel-send outcome are oracle inputs
(`Oracles`); the AI response is abstracted to its text lines plus its
flattened parameter map (`cx_service.cx_all_params_dict`). -/

/-- Which `update_conversation` call site produced a conversation write. -/
inductive UpdateTag where
  | inboundMeta
  | forceBot
  | resolvedReopen
  | lastMessageTextTranscript
  | sessionParams
  | pendingHandoff
deriving Repr, DecidableEq

/-- A value of the protobuf `Struct` built for the AI-backend query
parameters (`detect_intent_text` maps `None` to a null value, booleans to
booleans and everything else through `str`). -/
inductive StructVal where
  | null
  | b (x : Bool)
  | s (x : String)
deriving Repr, DecidableEq

/-- Externally visible effect of the webhook code paths. -/
inductive Event where
  | ensureConv (conversation_id : String) (existed : Bool)
  | addMsg (conversation_id message_id : String) (created : Bool)
  | updateConv (conversation_id : String) (tag : UpdateTag)
  | cxDetectIntent (session_id text : String) (queryParams : List (String × StructVal))
  | sendText (dest body : String)
  | buffered (conversation_id : String)
deriving Repr, DecidableEq

/-- The query-parameter struct `detect_intent_text` builds: a `user_id`
field when the caller id is truthy, then one field per session parameter
(`None` becomes a protobuf null, a string stays a string); an empty result
models passing `query_params=None`. -/
def buildQueryParams (user_id : String) (session_params : List (String × Option String)) :
    List (String × StructVal) :=
  if user_id ≠ "" || session_params ≠ [] then
    let base := if user_id ≠ "" then dictSet [] "user_id" (StructVal.s user_id) else []
    session_params.foldl (fun acc kv =>
      dictSet acc kv.1
        (match kv.2 with
         | Option.none => StructVal.null
         | some s => StructVal.s s)) base
  else []

/-- Arguments of one `process_message_async` run (one logical turn). -/
structure TurnInput where
  frm : String
  body : String
  sid : String
  conversation_id : String
  session_id : String
  media_url : Option String
  media_type : Option String
  conv_data : Conv
  source_message_id : Option String
deriving Repr, DecidableEq

/-- Oracle inputs standing for the external collaborators of one run:
whether a speech client is configured, the transcription result (`""` for
failure or empty transcript), the overall outcome of the retried AI-backend
call, and the channel-send result. -/
structure Oracles where
  speechClientPresent : Bool
  transcript : String
  cx : Except GErr (List String × List (String × PValue))
  sendOk : Bool

/-- The effective conversation status a turn starts from:
`(conv_data.get("status") or "bot").lower()`. -/
def statusOf (c : Conv) : String :=
  pyLower (pyOrStr c.status "bot")

/-- The saved user display name `process_message_async` re-asserts: the
stored `user_name` session parameter when it is a truthy string, or the
string under `user_name` inside a truthy mapping stored there. -/
def savedUserName (stored_params : List (String × PValue)) : Option String :=
  match alistGet stored_params "user_name" with
  | some v =>
      if pvTruthy v then
        match v with
        | .str s => if s ≠ "" then some s else Option.none
        | .dict d =>
            match alistGet d "user_name" with
            | some (.str s2) => if s2 ≠ "" then some s2 else Option.none
            | _ => Option.none
        | _ => Option.none
      else Option.none
  | Option.none => Option.none

/-- The `reset_cx_params` dict `process_message_async` hands to the AI
backend: on a resolved reopen, explicit `None` clears for the configured
handoff parameter plus `handoff_request` and `handoff_requested`; plus the
saved display name when present. -/
def resetParamsFor (st : Settings) (was_resolved : Bool)
    (stored_params : List (String × PValue)) : List (String × Option String) :=
  let resetParams0 : List (String × Option String) :=
    if was_resolved then
      let r1 : List (String × Option String) :=
        if st.dfHandoffParam ≠ "" then dictSet [] st.dfHandoffParam Option.none else []
      dictSet (dictSet r1 "handoff_request" Option.none) "handoff_requested" Option.none
    else []
  match savedUserName stored_params with
  | some s => dictSet resetParams0 "user_name" (some s)
  | Option.none => resetParams0

/-- Audio-transcription stage of `process_message_async` (step 3): when a
speech client is configured, the audio feature is on and the turn carries a
truthy audio media reference, merge the transcription oracle's result into
the body (persisting `last_message_text`), or fall back to the configured
phrase on an empty result.  Returns the (possibly merged) body and threads
the store and event trace.  (`repo.update_message` does not exist on
`FirestoreRepository`; that call raises `AttributeError`, swallowed by its
`try/except`, so the transcript-enrichment write leaves no state.) -/
def pmaAudio (st : Settings) (inp : TurnInput) (orc : Oracles)
    (store2 : Store) (ev2 : List Event) : String × Store × List Event :=
  let mediaTruthy :=
    match inp.media_url with
    | some u => u ≠ ""
    | Option.none => false
  let doAudio :=
    orc.speechClientPresent && st.featureAudioTranscription && mediaTruthy &&
      is_audio_media_type inp.media_type
  if doAudio then
    if orc.transcript ≠ "" then
      let b := merge_audio_transcript inp.body orc.transcript
      (b,
       updateConvWith store2 inp.conversation_id (fun c => { c with last_message_text := b }),
       ev2 ++ [Event.updateConv inp.conversation_id UpdateTag.lastMessageTextTranscript])
    else
      let fb := pyStrip st.sttFallbackText
      (if fb ≠ "" then merge_audio_transcript inp.body fb else inp.body, store2, ev2)
  else (inp.body, store2, ev2)

/-- Steps 7–8 of the turn processor: record the reply through the
idempotent gate under the deterministic outbound id `bot:<inbound id>` and,
only when the record was fresh, dispatch it through the channel sender. -/
def pmaRecordSend (inp : TurnInput) (reply_text : String)
    (store5 : Store) (ev5 : List Event) : Store × List Event :=
  let out_msg_id := "bot:" ++ pyOrStr inp.sid inp.session_id
  let r := add_message_if_new store5 inp.conversation_id out_msg_id "out" "bot"
    reply_text Option.none Option.none
  (r.2,
   ev5 ++ [Event.addMsg inp.conversation_id out_msg_id r.1] ++
     (if r.1 then [Event.sendText inp.frm reply_text] else []))

/-- Tail of `process_message_async` after the state gates and the audio
stage (steps 4–8): the AI-backend call (the retried `detect_intent_text`
outcome is the oracle `orc.cx`), session-parameter persistence, handoff
detection and reply selection, and the record-and-send step
`pmaRecordSend`.  On an exhausted/failed backend call the generic
stability fallback is recorded and sent instead and nothing else runs. -/
def pmaTail (st : Settings) (inp : TurnInput) (orc : Oracles) (status2 : String)
    (resetParams : List (String × Option String)) (body1 : String)
    (store3 : Store) (ev3 : List Event) : Store × List Event :=
  let queryParams := buildQueryParams inp.conversation_id resetParams
  let evCx := Event.cxDetectIntent inp.session_id body1 queryParams
  match orc.cx with
  | Except.error _ =>
      pmaRecordSend inp FALLBACK_STABILITY_TEXT store3 (ev3 ++ [evCx])
  | Except.ok (texts, params) =>
      let saveSess := params ≠ []
      let store4 :=
        if saveSess then
          updateConvWith store3 inp.conversation_id
            (fun c => { c with session_parameters := params })
        else store3
      let ev4 :=
        ev3 ++ [evCx] ++
          (if saveSess then [Event.updateConv inp.conversation_id UpdateTag.sessionParams] else [])
      let allow_handoff_param := status2 == "bot" && st.dfHandoffParam ≠ ""
      let handoff_requested := handoff_from_cx texts params allow_handoff_param st
      let bot_reply_text := join_bot_texts texts
      let branch : Store × List Event × String :=
        if handoff_requested then
          if st.featureDisableHandoff then
            (store4, ev4,
             pyOrStr st.handoffDisabledText
               (pyOrStr bot_reply_text (pyOrStr st.handoffAckText FALLBACK_STABILITY_TEXT)))
          else
            (updateConvWith store4 inp.conversation_id applyPendingHandoff,
             ev4 ++ [Event.updateConv inp.conversation_id UpdateTag.pendingHandoff],
             pyOrStr bot_reply_text (pyOrStr st.handoffAckText FALLBACK_STABILITY_TEXT))
        else
          (store4, ev4, pyOrStr bot_reply_text FALLBACK_STABILITY_TEXT)
      pmaRecordSend inp branch.2.2 branch.1 branch.2.1

/-- `webhook_service.process_message_async`: the turn processor.  Steps in
source order: handoff-state gate (with the force-bot override), resolved
reopen (collecting explicit parameter clears), saved display-name
re-assertion, then the audio stage `pmaAudio` and the call/reply tail
`pmaTail`. -/
def process_message_async (st : Settings) (inp : TurnInput) (orc : Oracles)
    (store0 : Store) : Store × List Event :=
  let status0 := statusOf inp.conv_data
  let handoff_active0 := inp.conv_data.handoff_active
  let suppressed :=
    status0 == "pending_handoff" || status0 == "claimed" || status0 == "active" || handoff_active0
  if suppressed && !(st.featureDisableHandoff && st.featureForceBotWhenHandoffDisabled) then
    (store0, [])
  else
    let store1 :=
      if suppressed then updateConvWith store0 inp.conversation_id applyBotReset else store0
    let ev1 : List Event :=
      if suppressed then [Event.updateConv inp.conversation_id UpdateTag.forceBot] else []
    let status1 := if suppressed then "bot" else status0
    let was_resolved := status1 == "resolved"
    let store2 :=
      if was_resolved then updateConvWith store1 inp.conversation_id applyBotReset else store1
    let ev2 :=
      ev1 ++ (if was_resolved then [Event.updateConv inp.conversation_id UpdateTag.resolvedReopen] else [])
    let status2 := if was_resolved then "bot" else status1
    let resetParams := resetParamsFor st was_resolved inp.conv_data.session_parameters
    let a := pmaAudio st inp orc store2 ev2
    pmaTail st inp orc status2 resetParams a.1 a.2.1 a.2.2

/-! ### Inbound normalizer and webhook handler -/

/-- Raw inbound form fields (Twilio webhook POST body and the idempotency
header), with `""` standing for an absent string field, plus the outcome of
the request-signature check. -/
structure InboundForm where
  frm : String
  to_ : String
  body : String
  sid : String
  idemToken : String
  profileName : String
  num_media : ℕ
  media_url0 : Option String
  media_type0 : Option String
  sigValid : Bool
deriving Repr, DecidableEq

/-- The sender address with the `whatsapp:` prefix and every `+` removed,
then stripped (`_session_id_from_from_field`'s normalization). -/
def stripped_from (from_field : String) : String :=
  pyStrip (strReplace (strReplace from_field "whatsapp:" "") "+" "")

/-- `webhook_service._session_id_from_from_field`: the normalized sender
address, or a fresh `uuid.uuid4()` when the input or the normalization is
empty. -/
def session_id_from_from_field (from_field : String) (st : Store) : String × Store :=
  if from_field = "" then freshId st
  else
    let sid := stripped_from from_field
    if sid = "" then freshId st else (sid, st)

/-- `f"+{sid}" if sid and not sid.startswith("+") else sid`. -/
def e164_of (sid : String) : String :=
  if sid ≠ "" && !(pyStartsWith sid "+") then "+" ++ sid else sid

/-- `webhook_service._conversation_id_e164`: the session id prefixed with
`+` when non-empty and not already so prefixed.  (It draws its own
`uuid.uuid4()` for a malformed sender, independent of the session id's.) -/
def conversation_id_e164 (from_field : String) (st : Store) : String × Store :=
  let r := session_id_from_from_field from_field st
  (e164_of r.1, r.2)

/-- Canonical inbound message record (`extract_inbound_request`'s result). -/
structure InboundMsg where
  frm : String
  to_ : String
  body : String
  sid : String
  profile_name : String
  media_url : Option String
  media_type : Option String
  conversation_id : String
  session_id : String
deriving Repr, DecidableEq

/-- The media reference picked up from the form (`MediaUrl0` /
`MediaContentType0`, read only when `NumMedia > 0`). -/
def extract_media_url (form : InboundForm) : Option String :=
  if form.num_media > 0 then form.media_url0 else Option.none

def extract_media_type (form : InboundForm) : Option String :=
  if form.num_media > 0 then form.media_type0 else Option.none

/-- The body after placeholder substitution: a blank body with a media
attachment becomes `[Audio]` / `[Imagem]` / `[Video]` / `[Documento]`
keyed by coarse media category. -/
def extract_body (form : InboundForm) : String :=
  let media_type := extract_media_type form
  let mtStarts (p : String) : Bool :=
    match media_type with
    | some mt => pyStartsWith mt p
    | Option.none => false
  let mtTruthy : Bool :=
    match media_type with
    | some mt => mt ≠ ""
    | Option.none => false
  if form.num_media > 0 then
    if is_audio_media_type media_type && pyStrip form.body = "" then "[Audio]"
    else if mtStarts "image/" && pyStrip form.body = "" then "[Imagem]"
    else if mtStarts "video/" && pyStrip form.body = "" then "[Video]"
    else if mtTruthy && pyStrip form.body = "" then "[Documento]"
    else form.body
  else form.body

/-- `webhook_service.extract_inbound_request`: read the form fields, pick
up the first media attachment when `NumMedia > 0`, substitute a placeholder
body when blank, and derive the conversation and session ids (in that
order, so a malformed sender draws two distinct fresh ids). -/
def extract_inbound_request (form : InboundForm) (st : Store) : InboundMsg × Store :=
  let cr := conversation_id_e164 form.frm st
  let sr := session_id_from_from_field form.frm cr.2
  ({ frm := form.frm
     to_ := form.to_
     body := extract_body form
     sid := form.sid
     profile_name := pyStrip form.profileName
     media_url := extract_media_url form
     media_type := extract_media_type form
     conversation_id := cr.1
     session_id := sr.1 }, sr.2)

/-- The webhook handler's HTTP result: a 403 on a bad signature, otherwise
the empty TwiML acknowledgement (status 200) on every path. -/
inductive WebhookResponse where
  | invalidSignature
  | ack
deriving Repr, DecidableEq

/-- `webhook_service.handle_webhook`: validate the signature, normalize the
inbound request, ensure the conversation, compute the inbound id
(`MessageSid`, else the idempotency header, else a fresh uuid), run the
idempotent ingestion gate and short-circuit with the empty acknowledgement
on a duplicate; otherwise refresh the conversation metadata and hand the
message to the aggregation buffer (when enabled) or directly to the turn
processor. -/
def handle_webhook (st : Settings) (form : InboundForm) (orc : Oracles) (store0 : Store) :
    WebhookResponse × Store × List Event :=
  if !form.sigValid then (WebhookResponse.invalidSignature, store0, [])
  else
    let er := extract_inbound_request form store0
    let inb := er.1
    let store1 := er.2
    let ec := ensure_conversation store1 inb.conversation_id inb.session_id
    let conv_data := ec.1
    let existed := ec.2.1
    let store2 := ec.2.2
    let idres : String × Store :=
      if inb.sid ≠ "" then (inb.sid, store2)
      else if form.idemToken ≠ "" then (form.idemToken, store2)
      else freshId store2
    let inbound_id := idres.1
    let store3 := idres.2
    let ar := add_message_if_new store3 inb.conversation_id inbound_id "in" "user" inb.body
      inb.media_url inb.media_type
    let created := ar.1
    let store4 := ar.2
    let evs0 := [Event.ensureConv inb.conversation_id existed,
                 Event.addMsg inb.conversation_id inbound_id created]
    if !created then (WebhookResponse.ack, store4, evs0)
    else
      let store5 := updateConvWith store4 inb.conversation_id (fun c =>
        { c with
          last_message_text := inb.body
          last_in_from := some "user"
          last_inbound_at := true
          wa_profile_name := if inb.profile_name ≠ "" then some inb.profile_name else c.wa_profile_name })
      let evs1 := evs0 ++ [Event.updateConv inb.conversation_id UpdateTag.inboundMeta]
      if st.featureMessageAggregation then
        (WebhookResponse.ack, store5, evs1 ++ [Event.buffered inb.conversation_id])
      else
        let pr := process_message_async st
          { frm := inb.frm
            body := inb.body
            sid := inbound_id
            conversation_id := inb.conversation_id
            session_id := inb.session_id
            media_url := inb.media_url
            media_type := inb.media_type
            conv_data := conv_data
            source_message_id := some inbound_id }
          orc store5
        (WebhookResponse.ack, pr.1, evs1 ++ pr.2)

/-! ### Derived observables and concrete sample data -/

/-- Number of message records stored under one (conversation id, message id)
key. -/
def msgsUnder (st : Store) (conversation_id message_id : String) : ℕ :=
  st.msgs.countP (fun kv => kv.1 == (conversation_id, message_id))

/-- Recognizer for the inbound-metadata refresh event
(`update_conversation` at the ingestion call site). -/
def isInboundMetaEv : Event → Bool
  | Event.updateConv _ UpdateTag.inboundMeta => true
  | _ => false

/-- Recognizer for an AI-backend call event. -/
def isCxEv : Event → Bool
  | Event.cxDetectIntent _ _ _ => true
  | _ => false

/-- Recognizer for a channel-send event. -/
def isSendEv : Event → Bool
  | Event.sendText _ _ => true
  | _ => false

/-- Sample configuration used by concrete runs: handoff enabled,
`DF_HANDOFF_PARAM = "handoff_request"`, one non-empty hint phrase. -/
def settingsA : Settings :=
  { featureDisableHandoff := false
    featureForceBotWhenHandoffDisabled := true
    dfHandoffParam := "handoff_request"
    dfHandoffTextHints := ["transferindo voce agora para um de nossos atendentes"]
    handoffDisabledText := "atendimento humano temporariamente indisponivel"
    handoffAckText := "certo! um atendente vai assumir esta conversa"
    featureMessageAggregation := true
    featureAudioTranscription := true
    sttFallbackText := "" }

/-- Sample conversation, message, store and form for concrete runs. -/
def convB : Conv := mkConv "+551" "551"

def msgB : Msg := mkMsg "SM1" "in" "user" "Oi" Option.none Option.none

/-- A store already holding the conversation and the inbound message
`SM1` (the state after a first delivery was ingested). -/
def storeDup : Store :=
  Store.mk [("+551", convB)] [(("+551", "SM1"), msgB)] 0

def formB : InboundForm :=
  { frm := "whatsapp:+551"
    to_ := "whatsapp:+900"
    body := "Oi"
    sid := "SM1"
    idemToken := ""
    profileName := ""
    num_media := 0
    media_url0 := Option.none
    media_type0 := Option.none
    sigValid := true }

/-- Oracle sample: no speech client, AI backend answers "ola" with no
parameters, channel send succeeds. -/
def orcB : Oracles :=
  { speechClientPresent := false
    transcript := ""
    cx := Except.ok (["ola"], [])
    sendOk := true }

/-- Sample turn input for one inbound message `SM1` from `+551`. -/
def inpB : TurnInput :=
  { frm := "whatsapp:+551"
    body := "Oi"
    sid := "SM1"
    conversation_id := "+551"
    session_id := "551"
    media_url := Option.none
    media_type := Option.none
    conv_data := convB
    source_message_id := some "SM1" }

/-- A store holding only the conversation (no messages yet). -/
def storeC : Store := Store.mk [("+551", convB)] [] 0

/-- Oracle sample: the AI-backend call failed (exhausted transient retries). -/
def orcErr : Oracles :=
  { speechClientPresent := false
    transcript := ""
    cx := Except.error (GErr.mk true 1)
    sendOk := true }

/-- Configuration with both the handoff-disable and force-bot overrides set
(`settingsA` already carries the force-bot flag). -/
def settingsF : Settings :=
  { settingsA with featureDisableHandoff := true }

/-- A conversation parked in `pending_handoff`, and a turn and store built
on it. -/
def convP : Conv := { convB with status := "pending_handoff" }

def inpP : TurnInput := { inpB with conv_data := convP }

def storeP : Store := Store.mk [("+551", convP)] [] 0


/-- A `resolved` conversation carrying a saved display name, and a turn and
store built on it. -/
def convR : Conv :=
  { convB with status := "resolved"
               session_parameters := [("user_name", PValue.str "Ana")] }

def inpR : TurnInput := { inpB with conv_data := convR }

def storeR : Store := Store.mk [("+551", convR)] [] 0


/-- Oracle sample: the backend reports one reply line and a truthy
`handoff_request` session parameter. -/
def orcH : Oracles :=
  { speechClientPresent := false
    transcript := ""
    cx := Except.ok (["encaminhando"], [("handoff_request", PValue.bool true)])
    sendOk := true }

/-! ### Basic lemmas about the dictionary model -/

theorem alistGet_nil {κ α : Type} [BEq κ] (k : κ) :
    alistGet ([] : List (κ × α)) k = Option.none := rfl

theorem alistGet_cons {κ α : Type} [BEq κ] (kv : κ × α) (rest : List (κ × α)) (k : κ) :
    alistGet (kv :: rest) k = if kv.1 == k then some kv.2 else alistGet rest k := by
  by_cases h : (kv.1 == k) = true
  · simp [alistGet, List.find?_cons_of_pos _ h, h]
  · simp [alistGet, List.find?_cons_of_neg _ (by simpa using h), h]

theorem alistGet_dictSet {κ α : Type} [DecidableEq κ] [BEq κ] [LawfulBEq κ]
    (l : List (κ × α)) (k : κ) (v : α) (k' : κ) :
    alistGet (dictSet l k v) k' = if k = k' then some v else alistGet l k' := by
  induction l with
  | nil =>
      by_cases h : k = k' <;> simp [dictSet, alistGet_cons, alistGet_nil, h]
  | cons kv rest ih =>
      by_cases hk : kv.1 = k
      · simp only [dictSet, if_pos hk]
        by_cases h : k = k'
        · simp [alistGet_cons, h]
        · have hb : (k == k') = false := by simp [h]
          have hb2 : (kv.1 == k') = false := by simp [hk, h]
          simp [alistGet_cons, hb, hb2, h]
      · simp only [dictSet, if_neg hk]
        by_cases hkv : (kv.1 == k') = true
        · have hkk' : kv.1 = k' := by simpa using hkv
          have hne : k ≠ k' := fun he => hk (hkk'.trans he.symm)
          simp [alistGet_cons, hkv, hne]
        · have hb : (kv.1 == k') = false := by simpa using hkv
          by_cases h : k = k'
          · subst h
            simp [alistGet_cons, hb, ih]
          · simp [alistGet_cons, hb, h, ih]

theorem alistGet_dictSet_self {κ α : Type} [DecidableEq κ] [BEq κ] [LawfulBEq κ]
    (l : List (κ × α)) (k : κ) (v : α) :
    alistGet (dictSet l k v) k = some v := by
  simp [alistGet_dictSet]

/-- When the key is absent, `dictSet` appends the new binding. -/
theorem dictSet_eq_append {κ α : Type} [DecidableEq κ]
    (l : List (κ × α)) (k : κ) (v : α) (h : ∀ kv ∈ l, kv.1 ≠ k) :
    dictSet l k v = l ++ [(k, v)] := by
  induction l with
  | nil => rfl
  | cons kv rest ih =>
      have h1 : kv.1 ≠ k := h kv (List.mem_cons_self kv rest)
      simp only [dictSet, if_neg h1, List.cons_append, List.cons.injEq, true_and]
      exact ih (fun kv' hkv' => h kv' (List.mem_cons_of_mem kv hkv'))

theorem alistGet_eq_none_forall {κ α : Type} [BEq κ] [LawfulBEq κ]
    (l : List (κ × α)) (k : κ) (h : alistGet l k = Option.none) :
    ∀ kv ∈ l, kv.1 ≠ k := by
  intro kv hkv
  unfold alistGet at h
  match hf : l.find? (fun kv => kv.1 == k) with
  | some kv' => rw [hf] at h; simp at h
  | Option.none =>
      have := List.find?_eq_none.mp hf kv hkv
      simpa using this

theorem countP_eq_zero_of_alistGet_none {κ α : Type} [BEq κ] [LawfulBEq κ]
    (l : List (κ × α)) (k : κ) (h : alistGet l k = Option.none) :
    l.countP (fun kv => kv.1 == k) = 0 := by
  rw [List.countP_eq_zero]
  intro kv hkv
  have := alistGet_eq_none_forall l k h kv hkv
  simpa using this

/-- `add_message_if_new` never touches the conversation collection. -/
theorem add_message_if_new_convs (st : Store) (conversation_id message_id direction by_ text : String)
    (media_url media_type : Option String) :
    (add_message_if_new st conversation_id message_id direction by_ text media_url media_type).2.convs
      = st.convs := by
  unfold add_message_if_new
  by_cases h : message_id = "" <;>
    · simp only [h, if_pos, if_neg, ite_true, ite_false]
      split <;> rfl

/-- `updateConvWith` never touches the message collection. -/
theorem updateConvWith_msgs (st : Store) (conversation_id : String) (f : Conv → Conv) :
    (updateConvWith st conversation_id f).msgs = st.msgs := by
  unfold updateConvWith
  split <;> rfl

theorem updateConvWith_fresh (st : Store) (conversation_id : String) (f : Conv → Conv) :
    (updateConvWith st conversation_id f).fresh = st.fresh := by
  unfold updateConvWith
  split <;> rfl

/-- A non-empty message id is taken as given, and a message under it
blocks the write: the call returns `false` and leaves the state unchanged. -/
theorem add_message_if_new_existing (st : Store) (conversation_id message_id direction by_ text : String)
    (media_url media_type : Option String) (m : Msg)
    (hmid : message_id ≠ "")
    (hex : alistGet st.msgs (conversation_id, message_id) = some m) :
    add_message_if_new st conversation_id message_id direction by_ text media_url media_type
      = (false, st) := by
  unfold add_message_if_new
  simp only [if_neg hmid, hex]

/-- A `bot:`-prefixed outbound id is never the empty string. -/
theorem bot_id_ne_empty (s : String) : ("bot:" ++ s) ≠ "" := by
  intro h
  have hlen := congrArg String.length h
  rw [String.length_append] at hlen
  have h4 : "bot:".length = 4 := by decide
  have h0 : String.length "" = 0 := by decide
  omega

theorem ite_updateConvWith_msgs (c : Prop) [Decidable c] (s : Store)
    (cid : String) (f : Conv → Conv) :
    (if c then updateConvWith s cid f else s).msgs = s.msgs := by
  split
  · exact updateConvWith_msgs _ _ _
  · rfl

/-- After `add_message_if_new` with a non-empty id, storage holds a record
under that id (whether the call created it or found it). -/
theorem add_message_if_new_key_present (store : Store)
    (cid mid d b t : String) (mu mt : Option String) (hmid : mid ≠ "") :
    ∃ m, alistGet (add_message_if_new store cid mid d b t mu mt).2.msgs (cid, mid) = some m := by
  unfold add_message_if_new
  dsimp only
  rw [if_neg hmid]
  dsimp only
  cases hlk : alistGet store.msgs (cid, mid) with
  | some m => exact ⟨m, hlk⟩
  | none => exact ⟨_, alistGet_dictSet_self _ _ _⟩

/-! ### Structural lemmas about the turn-processor stages -/

theorem pmaAudio_msgs (st : Settings) (inp : TurnInput) (orc : Oracles)
    (s2 : Store) (ev2 : List Event) :
    ((pmaAudio st inp orc s2 ev2).2.1).msgs = s2.msgs := by
  unfold pmaAudio
  dsimp only
  repeat' split
  all_goals first
    | rfl
    | exact updateConvWith_msgs _ _ _

theorem pmaAudio_countP (st : Settings) (inp : TurnInput) (orc : Oracles)
    (s2 : Store) (ev2 : List Event) (p : Event → Bool)
    (hp : p (Event.updateConv inp.conversation_id UpdateTag.lastMessageTextTranscript) = false) :
    ((pmaAudio st inp orc s2 ev2).2.2).countP p = ev2.countP p := by
  unfold pmaAudio
  dsimp only
  repeat' split
  all_goals simp [List.countP_append, List.countP_cons, hp]

theorem pmaRecordSend_of_out_exists (inp : TurnInput) (reply : String) (s5 : Store)
    (ev5 : List Event) (m : Msg)
    (hex : alistGet s5.msgs
      (inp.conversation_id, "bot:" ++ pyOrStr inp.sid inp.session_id) = some m) :
    pmaRecordSend inp reply s5 ev5 =
      (s5, ev5 ++ [Event.addMsg inp.conversation_id
        ("bot:" ++ pyOrStr inp.sid inp.session_id) false]) := by
  unfold pmaRecordSend
  dsimp only
  rw [add_message_if_new_existing _ _ _ _ _ _ _ _ m (bot_id_ne_empty _) hex]
  simp

theorem pmaTail_countP_of_out_exists (st : Settings) (inp : TurnInput) (orc : Oracles)
    (status2 : String) (rp : List (String × Option String)) (body1 : String)
    (s3 : Store) (ev3 : List Event) (m : Msg) (p : Event → Bool)
    (hex : alistGet s3.msgs
      (inp.conversation_id, "bot:" ++ pyOrStr inp.sid inp.session_id) = some m)
    (hp1 : ∀ sid b qp, p (Event.cxDetectIntent sid b qp) = false)
    (hp2 : ∀ c, p (Event.addMsg inp.conversation_id
      ("bot:" ++ pyOrStr inp.sid inp.session_id) c) = false)
    (hp3 : p (Event.updateConv inp.conversation_id UpdateTag.sessionParams) = false)
    (hp4 : p (Event.updateConv inp.conversation_id UpdateTag.pendingHandoff) = false) :
    ((pmaTail st inp orc status2 rp body1 s3 ev3).2).countP p = ev3.countP p := by
  unfold pmaTail
  dsimp only
  rcases orc.cx with er | ⟨texts, params⟩ <;> dsimp only
  · rw [pmaRecordSend_of_out_exists _ _ _ _ m hex]
    simp [List.countP_append, List.countP_cons, hp1, hp2]
  · repeat' split
    all_goals
      rw [pmaRecordSend_of_out_exists _ _ _ _ m
        (by simp only [updateConvWith_msgs]; exact hex)]
    all_goals
      simp [List.countP_append, List.countP_cons, hp1, hp2, hp3, hp4]

theorem pmaTail_countP (st : Settings) (inp : TurnInput) (orc : Oracles)
    (status2 : String) (rp : List (String × Option String)) (body1 : String)
    (s3 : Store) (ev3 : List Event) (p : Event → Bool)
    (hp1 : ∀ sid b qp, p (Event.cxDetectIntent sid b qp) = false)
    (hp2 : ∀ c, p (Event.addMsg inp.conversation_id
      ("bot:" ++ pyOrStr inp.sid inp.session_id) c) = false)
    (hp3 : p (Event.updateConv inp.conversation_id UpdateTag.sessionParams) = false)
    (hp4 : p (Event.updateConv inp.conversation_id UpdateTag.pendingHandoff) = false)
    (hp5 : ∀ d b, p (Event.sendText d b) = false) :
    ((pmaTail st inp orc status2 rp body1 s3 ev3).2).countP p = ev3.countP p := by
  unfold pmaTail pmaRecordSend
  dsimp only
  rcases orc.cx with er | ⟨texts, params⟩ <;> dsimp only
  · repeat' split
    all_goals simp [List.countP_append, List.countP_cons, hp1, hp2, hp5]
  · repeat' split
    all_goals simp [List.countP_append, List.countP_cons, hp1, hp2, hp3, hp4, hp5]

/-- The turn processor performs the inbound-metadata refresh
(`update_conversation` at the ingestion call site) zero times: that write
belongs to `handle_webhook` alone. -/
theorem pma_inboundMeta_count (st : Settings) (inp : TurnInput) (orc : Oracles)
    (store : Store) :
    ((process_message_async st inp orc store).2).countP (fun e => isInboundMetaEv e) = 0 := by
  unfold process_message_async
  dsimp only
  split
  · simp
  · rw [pmaTail_countP _ _ _ _ _ _ _ _ _
      (fun sid b qp => rfl) (fun c => rfl) rfl rfl (fun d b => rfl)]
    rw [pmaAudio_countP _ _ _ _ _ _ rfl]
    split <;> split <;>
      simp [List.countP_append, List.countP_cons, isInboundMetaEv]

/-- When the deterministic outbound record `bot:<inbound id>` already
exists, a turn-processor run sends nothing through the channel. -/
theorem pma_send_count_of_out_exists (st : Settings) (inp : TurnInput) (orc : Oracles)
    (store : Store) (m : Msg)
    (hex : alistGet store.msgs
      (inp.conversation_id, "bot:" ++ pyOrStr inp.sid inp.session_id) = some m) :
    ((process_message_async st inp orc store).2).countP (fun e => isSendEv e) = 0 := by
  unfold process_message_async
  dsimp only
  split
  · simp
  · rw [pmaTail_countP_of_out_exists _ _ _ _ _ _ _ _ m _
      (by
        rw [pmaAudio_msgs]
        simp only [ite_updateConvWith_msgs]
        exact hex)
      (fun sid b qp => rfl) (fun c => rfl) rfl rfl]
    rw [pmaAudio_countP _ _ _ _ _ _ rfl]
    split <;> split <;>
      simp [List.countP_append, List.countP_cons, isSendEv]

theorem ensure_conversation_msgs (st : Store) (cid sid : String) :
    (ensure_conversation st cid sid).2.2.msgs = st.msgs := by
  unfold ensure_conversation
  split <;> rfl

/-- The creating branch of `add_message_if_new` spelled out. -/
theorem add_message_if_new_creates (store : Store)
    (cid mid d b t : String) (mu mt : Option String)
    (hmid : mid ≠ "")
    (habs : alistGet store.msgs (cid, mid) = Option.none) :
    add_message_if_new store cid mid d b t mu mt =
      (true, Store.mk store.convs
        (dictSet store.msgs (cid, mid) (mkMsg mid d b t mu mt)) store.fresh) := by
  unfold add_message_if_new
  dsimp only
  rw [if_neg hmid]
  dsimp only
  rw [habs]

/-- For a well-formed sender address the extraction draws no fresh ids and
derives the canonical conversation/session identity. -/
theorem extract_inbound_request_eq (form : InboundForm) (st : Store)
    (hfrm : form.frm ≠ "") (hstrip : stripped_from form.frm ≠ "") :
    extract_inbound_request form st =
      ({ frm := form.frm
         to_ := form.to_
         body := extract_body form
         sid := form.sid
         profile_name := pyStrip form.profileName
         media_url := extract_media_url form
         media_type := extract_media_type form
         conversation_id := e164_of (stripped_from form.frm)
         session_id := stripped_from form.frm }, st) := by
  unfold extract_inbound_request conversation_id_e164 session_id_from_from_field
  dsimp only
  rw [if_neg hfrm]
  rw [if_neg hstrip]
  simp [hfrm, hstrip]

theorem updateConvWith_lookup (s : Store) (cid : String) (f : Conv → Conv) (c : Conv)
    (hc : alistGet s.convs cid = some c) :
    alistGet (updateConvWith s cid f).convs cid = some (f c) := by
  unfold updateConvWith
  rw [hc]
  exact alistGet_dictSet_self _ _ _

/-- The audio stage leaves the buffer's event list either unchanged or
extended by exactly the transcript-persist write. -/
theorem pmaAudio_events_form (st : Settings) (inp : TurnInput) (orc : Oracles)
    (s2 : Store) (ev2 : List Event) :
    (pmaAudio st inp orc s2 ev2).2.2 = ev2 ∨
    (pmaAudio st inp orc s2 ev2).2.2 =
      ev2 ++ [Event.updateConv inp.conversation_id UpdateTag.lastMessageTextTranscript] := by
  unfold pmaAudio
  dsimp only
  repeat' split
  all_goals first
    | exact Or.inl rfl
    | exact Or.inr rfl

/-- The audio stage preserves a conversation's status and handoff fields
(it only rewrites `last_message_text`). -/
theorem pmaAudio_conv_fields (st : Settings) (inp : TurnInput) (orc : Oracles)
    (s2 : Store) (ev2 : List Event) (c : Conv)
    (hc : alistGet s2.convs inp.conversation_id = some c) :
    ∃ c2, alistGet ((pmaAudio st inp orc s2 ev2).2.1).convs inp.conversation_id = some c2 ∧
      c2.status = c.status ∧ c2.handoff_active = c.handoff_active ∧
      c2.assignee = c.assignee ∧ c2.assignee_name = c.assignee_name ∧
      c2.session_parameters = c.session_parameters := by
  unfold pmaAudio
  dsimp only
  repeat' split
  all_goals first
    | exact ⟨c, hc, rfl, rfl, rfl, rfl, rfl⟩
    | exact ⟨_, updateConvWith_lookup _ _ _ c hc, rfl, rfl, rfl, rfl, rfl⟩

/-- Every `pmaTail` run performs exactly one AI-backend call. -/
theorem pmaTail_cx_count (st : Settings) (inp : TurnInput) (orc : Oracles)
    (status2 : String) (rp : List (String × Option String)) (body1 : String)
    (s3 : Store) (ev3 : List Event) :
    ((pmaTail st inp orc status2 rp body1 s3 ev3).2).countP (fun e => isCxEv e)
      = ev3.countP (fun e => isCxEv e) + 1 := by
  unfold pmaTail pmaRecordSend
  dsimp only
  rcases orc.cx with er | ⟨texts, params⟩ <;> dsimp only
  · repeat' split
    all_goals simp [List.countP_append, List.countP_cons, isCxEv]
  · repeat' split
    all_goals simp [List.countP_append, List.countP_cons, isCxEv]

/-- The event trace of a `pmaTail` run extends the incoming trace, so its
first event is the incoming trace's first event. -/
theorem pmaTail_head (st : Settings) (inp : TurnInput) (orc : Oracles)
    (status2 : String) (rp : List (String × Option String)) (body1 : String)
    (s3 : Store) (e0 : Event) (evr : List Event) :
    ((pmaTail st inp orc status2 rp body1 s3 (e0 :: evr)).2).head? = some e0 := by
  unfold pmaTail pmaRecordSend
  dsimp only
  rcases orc.cx with er | ⟨texts, params⟩ <;> dsimp only
  · repeat' split
    all_goals simp
  · repeat' split
    all_goals simp

/-- When handoff is globally disabled, `pmaTail` never performs the
`pending_handoff` transition, so status and handoff fields survive. -/
theorem pmaTail_conv_fields_disabled (st : Settings) (inp : TurnInput) (orc : Oracles)
    (status2 : String) (rp : List (String × Option String)) (body1 : String)
    (s3 : Store) (ev3 : List Event) (c : Conv)
    (hD : st.featureDisableHandoff = true)
    (hc : alistGet s3.convs inp.conversation_id = some c) :
    ∃ c2, alistGet ((pmaTail st inp orc status2 rp body1 s3 ev3).1).convs
        inp.conversation_id = some c2 ∧
      c2.status = c.status ∧ c2.handoff_active = c.handoff_active ∧
      c2.assignee = c.assignee ∧ c2.assignee_name = c.assignee_name := by
  unfold pmaTail pmaRecordSend
  dsimp only
  rcases orc.cx with er | ⟨texts, params⟩ <;> dsimp only
  · refine ⟨c, ?_, rfl, rfl, rfl, rfl⟩
    rw [add_message_if_new_convs]
    exact hc
  · repeat' split
    all_goals first
      | exact ⟨c, by rw [add_message_if_new_convs]; exact hc, rfl, rfl, rfl, rfl⟩
      | exact ⟨{ c with session_parameters := params }, (by rw [add_message_if_new_convs]; exact updateConvWith_lookup _ _ _ c hc), rfl, rfl, rfl, rfl⟩

/-! ### C2 — duplicate inbound requests short-circuit -/

/-- C2: (i) a redelivered inbound request whose message id already exists
in storage short-circuits with the standard empty acknowledgement — no
mutation, no metadata refresh, no AI-backend call, no outbound record and
no send (the only effects are the conversation read and the failed gate
check); (ii) a first (non-duplicate) delivery refreshes the conversation
metadata exactly once; (iii) the outbound reply is deduplicated by the
deterministic id `bot:<inbound id>` — any turn-processor run whose
outbound record already exists sends nothing. -/
theorem duplicate_webhook_short_circuit
    (st : Settings) (form : InboundForm) (orc : Oracles) (store : Store)
    (hsig : form.sigValid = true)
    (hfrm : form.frm ≠ "")
    (hstrip : stripped_from form.frm ≠ "")
    (hsid : form.sid ≠ "") :
    (∀ c, alistGet store.convs (e164_of (stripped_from form.frm)) = some c →
      ∀ m, alistGet store.msgs (e164_of (stripped_from form.frm), form.sid) = some m →
      handle_webhook st form orc store =
        (WebhookResponse.ack, store,
         [Event.ensureConv (e164_of (stripped_from form.frm)) true,
          Event.addMsg (e164_of (stripped_from form.frm)) form.sid false])) ∧
    (alistGet store.msgs (e164_of (stripped_from form.frm), form.sid) = Option.none →
      ((handle_webhook st form orc store).2.2).countP (fun e => isInboundMetaEv e) = 1) ∧
    (∀ (inp : TurnInput) (orc2 : Oracles) (store2 : Store) (m2 : Msg),
      alistGet store2.msgs
        (inp.conversation_id, "bot:" ++ pyOrStr inp.sid inp.session_id) = some m2 →
      ((process_message_async st inp orc2 store2).2).countP (fun e => isSendEv e) = 0) := by
  refine ⟨?_, ?_, ?_⟩
  · intro c hconv m hmsg
    unfold handle_webhook
    rw [extract_inbound_request_eq form store hfrm hstrip]
    rw [hsig]
    simp only [Bool.not_true]
    rw [if_neg Bool.false_ne_true]
    unfold ensure_conversation
    rw [hconv]
    dsimp only
    rw [if_pos hsid]
    dsimp only
    rw [add_message_if_new_existing _ _ _ _ _ _ _ _ m hsid hmsg]
    simp
  · intro habs
    unfold handle_webhook
    rw [extract_inbound_request_eq form store hfrm hstrip]
    rw [hsig]
    simp only [Bool.not_true]
    rw [if_neg Bool.false_ne_true]
    rw [if_pos hsid]
    dsimp only
    rw [add_message_if_new_creates _ _ _ _ _ _ _ _ hsid
      (by rw [ensure_conversation_msgs]; exact habs)]
    dsimp only
    split
    · next h => exact absurd h (by simp)
    · split
      · simp [List.countP_append, List.countP_cons, isInboundMetaEv]
      · rw [List.countP_append, pma_inboundMeta_count]
        simp [List.countP_append, List.countP_cons, isInboundMetaEv]
  · intro inp orc2 store2 m2 hex
    exact pma_send_count_of_out_exists st inp orc2 store2 m2 hex

/-- C2 witness: redelivering `SM1` against a store that already holds it
returns the empty acknowledgement, leaves the store untouched, and records
only the conversation read plus the failed gate check. -/
theorem duplicate_webhook_short_circuit_witness :
    handle_webhook settingsA formB orcB storeDup =
      (WebhookResponse.ack, storeDup,
       [Event.ensureConv (e164_of (stripped_from formB.frm)) true,
        Event.addMsg (e164_of (stripped_from formB.frm)) formB.sid false]) :=
  (duplicate_webhook_short_circuit settingsA formB orcB storeDup rfl (by decide)
      (by decide) (by decide)).1 convB rfl msgB rfl

/-! ### C1 — idempotent ingestion gate -/

/-- C1 (amended): for every conversation id and **non-empty** message id
not yet present in storage, calling `add_message_if_new` twice with
identical arguments returns `created = true` then `created = false`, the
second call performs no mutation, and storage ends up with exactly one
message record under that id. -/
theorem add_message_if_new_idempotent
    (store : Store) (conversation_id message_id direction by_ text : String)
    (media_url media_type : Option String)
    (hmid : message_id ≠ "")
    (habsent : alistGet store.msgs (conversation_id, message_id) = Option.none) :
    (add_message_if_new store conversation_id message_id direction by_ text
        media_url media_type).1 = true ∧
    (add_message_if_new
        (add_message_if_new store conversation_id message_id direction by_ text
          media_url media_type).2
        conversation_id message_id direction by_ text media_url media_type).1 = false ∧
    (add_message_if_new
        (add_message_if_new store conversation_id message_id direction by_ text
          media_url media_type).2
        conversation_id message_id direction by_ text media_url media_type).2 =
      (add_message_if_new store conversation_id message_id direction by_ text
        media_url media_type).2 ∧
    msgsUnder
      (add_message_if_new store conversation_id message_id direction by_ text
        media_url media_type).2 conversation_id message_id = 1 := by
  have hkeys := alistGet_eq_none_forall store.msgs (conversation_id, message_id) habsent
  have happ : dictSet store.msgs (conversation_id, message_id)
      (mkMsg message_id direction by_ text media_url media_type)
      = store.msgs ++ [((conversation_id, message_id),
        mkMsg message_id direction by_ text media_url media_type)] :=
    dictSet_eq_append _ _ _ hkeys
  have h1 : add_message_if_new store conversation_id message_id direction by_ text
      media_url media_type =
      (true, Store.mk store.convs
        (dictSet store.msgs (conversation_id, message_id)
          (mkMsg message_id direction by_ text media_url media_type)) store.fresh) := by
    unfold add_message_if_new
    simp only [if_neg hmid, habsent]
  have hsec : alistGet (dictSet store.msgs (conversation_id, message_id)
      (mkMsg message_id direction by_ text media_url media_type))
      (conversation_id, message_id)
      = some (mkMsg message_id direction by_ text media_url media_type) :=
    alistGet_dictSet_self _ _ _
  have h2 : add_message_if_new
      (add_message_if_new store conversation_id message_id direction by_ text
        media_url media_type).2
      conversation_id message_id direction by_ text media_url media_type =
      (false, (add_message_if_new store conversation_id message_id direction by_ text
        media_url media_type).2) := by
    apply add_message_if_new_existing _ _ _ _ _ _ _ _
      (mkMsg message_id direction by_ text media_url media_type) hmid
    rw [h1]
    exact hsec
  refine ⟨by rw [h1], by rw [h2], by rw [h2], ?_⟩
  rw [h1]
  unfold msgsUnder
  simp only [happ, List.countP_append]
  have hz : store.msgs.countP (fun kv => kv.1 == (conversation_id, message_id)) = 0 :=
    countP_eq_zero_of_alistGet_none _ _ habsent
  rw [hz]
  simp [List.countP_cons]

/-- C1 witness: the amended statement evaluated on a concrete store. -/
theorem add_message_if_new_idempotent_witness :
    (("m1" : String) ≠ "" ∧
      alistGet (Store.mk [] [] 0).msgs ("+551", "m1") = Option.none) ∧
    ((add_message_if_new (Store.mk [] [] 0) "+551" "m1" "in" "user" "oi"
        Option.none Option.none).1 = true ∧
     (add_message_if_new
        (add_message_if_new (Store.mk [] [] 0) "+551" "m1" "in" "user" "oi"
          Option.none Option.none).2
        "+551" "m1" "in" "user" "oi" Option.none Option.none).1 = false ∧
     (add_message_if_new
        (add_message_if_new (Store.mk [] [] 0) "+551" "m1" "in" "user" "oi"
          Option.none Option.none).2
        "+551" "m1" "in" "user" "oi" Option.none Option.none).2 =
       (add_message_if_new (Store.mk [] [] 0) "+551" "m1" "in" "user" "oi"
         Option.none Option.none).2 ∧
     msgsUnder
       (add_message_if_new (Store.mk [] [] 0) "+551" "m1" "in" "user" "oi"
         Option.none Option.none).2 "+551" "m1" = 1) :=
  ⟨⟨by decide, rfl⟩,
   add_message_if_new_idempotent (Store.mk [] [] 0) "+551" "m1" "in" "user" "oi"
     Option.none Option.none (by decide) rfl⟩

/-- C1 counterexample: with the empty message id (and a generated id that
is fresh, as `uuid.uuid4` guarantees), the second identical call returns
`created = true` again and a second record is stored, so the claim as
stated — quantified over *every* message id — fails. -/
theorem add_message_if_new_empty_id_counterexample :
    (add_message_if_new (Store.mk [] [] 0) "+551" "" "in" "user" "oi"
      Option.none Option.none).1 = true ∧
    (add_message_if_new
      (add_message_if_new (Store.mk [] [] 0) "+551" "" "in" "user" "oi"
        Option.none Option.none).2
      "+551" "" "in" "user" "oi" Option.none Option.none).1 = true ∧
    (add_message_if_new
      (add_message_if_new (Store.mk [] [] 0) "+551" "" "in" "user" "oi"
        Option.none Option.none).2
      "+551" "" "in" "user" "oi" Option.none Option.none).2.msgs.length = 2 := by
  refine ⟨rfl, rfl, rfl⟩

/-! ### C10 — empty message ids always create -/

/-- C10: a call to `add_message_if_new` with an empty (or missing) message
id substitutes a freshly generated identifier before the existence check,
so — whenever the generated identifiers are indeed fresh, which is what
`uuid.uuid4` provides — such a call creates a new record and returns
`created = true`, and two such calls are never deduplicated against each
other. -/
theorem empty_message_id_always_creates
    (store : Store) (conversation_id direction by_ text : String)
    (media_url media_type : Option String)
    (hfresh1 : alistGet store.msgs (conversation_id, freshIdOf store) = Option.none)
    (hfresh2 : alistGet
      (add_message_if_new store conversation_id "" direction by_ text media_url media_type).2.msgs
      (conversation_id,
        freshIdOf (add_message_if_new store conversation_id "" direction by_ text
          media_url media_type).2) = Option.none) :
    (add_message_if_new store conversation_id "" direction by_ text media_url media_type).1
      = true ∧
    (add_message_if_new
      (add_message_if_new store conversation_id "" direction by_ text media_url media_type).2
      conversation_id "" direction by_ text media_url media_type).1 = true := by
  constructor
  · have h : alistGet (freshId store).2.msgs (conversation_id, (freshId store).1)
        = Option.none := hfresh1
    unfold add_message_if_new
    simp only [if_pos rfl, if_true, h]
  · have h : alistGet
        (freshId (add_message_if_new store conversation_id "" direction by_ text
          media_url media_type).2).2.msgs
        (conversation_id,
          (freshId (add_message_if_new store conversation_id "" direction by_ text
            media_url media_type).2).1) = Option.none := hfresh2
    conv_lhs =>
      rw [show add_message_if_new
          (add_message_if_new store conversation_id "" direction by_ text media_url media_type).2
          conversation_id "" direction by_ text media_url media_type =
        (match alistGet
            (freshId (add_message_if_new store conversation_id "" direction by_ text
              media_url media_type).2).2.msgs
            (conversation_id,
              (freshId (add_message_if_new store conversation_id "" direction by_ text
                media_url media_type).2).1) with
          | some _ => (false,
              (freshId (add_message_if_new store conversation_id "" direction by_ text
                media_url media_type).2).2)
          | Option.none => (true,
              { (freshId (add_message_if_new store conversation_id "" direction by_ text
                  media_url media_type).2).2 with
                msgs := dictSet
                  (freshId (add_message_if_new store conversation_id "" direction by_ text
                    media_url media_type).2).2.msgs
                  (conversation_id,
                    (freshId (add_message_if_new store conversation_id "" direction by_ text
                      media_url media_type).2).1)
                  (mkMsg (freshId (add_message_if_new store conversation_id "" direction by_ text
                      media_url media_type).2).1 direction by_ text media_url media_type) })
         : Bool × Store) from rfl]
    rw [h]

/-- C10 witness: two empty-id calls on the empty store both create. -/
theorem empty_message_id_always_creates_witness :
    (alistGet (Store.mk [] [] 0).msgs ("+551", freshIdOf (Store.mk [] [] 0)) = Option.none ∧
     alistGet
       (add_message_if_new (Store.mk [] [] 0) "+551" "" "in" "user" "oi"
         Option.none Option.none).2.msgs
       ("+551", freshIdOf (add_message_if_new (Store.mk [] [] 0) "+551" "" "in" "user" "oi"
         Option.none Option.none).2) = Option.none) ∧
    ((add_message_if_new (Store.mk [] [] 0) "+551" "" "in" "user" "oi"
        Option.none Option.none).1 = true ∧
     (add_message_if_new
       (add_message_if_new (Store.mk [] [] 0) "+551" "" "in" "user" "oi"
         Option.none Option.none).2
       "+551" "" "in" "user" "oi" Option.none Option.none).1 = true) :=
  ⟨⟨rfl, by rfl⟩,
   empty_message_id_always_creates (Store.mk [] [] 0) "+551" "in" "user" "oi"
     Option.none Option.none rfl (by rfl)⟩

/-! ### C3 — debounce window and aggregated body -/

theorem bufferAdd_some_count (cfg : DebounceCfg) (b : BufState) (t : ℚ) :
    (bufferAdd cfg (some b) t).count = b.count + 1 := rfl

theorem bufferAdd_some_first_ts (cfg : DebounceCfg) (b : BufState) (t : ℚ) :
    (bufferAdd cfg (some b) t).first_ts = b.first_ts := rfl

theorem bufferAdd_some_fireAt (cfg : DebounceCfg) (b : BufState) (t : ℚ) :
    (bufferAdd cfg (some b) t).fireAt
      = t + calculate_next_delay cfg (b.count + 1) t b.first_ts := rfl

theorem bufferAdd_none_fireAt (cfg : DebounceCfg) (t : ℚ) :
    (bufferAdd cfg Option.none t).fireAt = t + calculate_next_delay cfg 1 t t := rfl

theorem bufferFold_first_ts (cfg : DebounceCfg) (b : BufState) (ts : List ℚ) :
    (ts.foldl (fun b t => bufferAdd cfg (some b) t) b).first_ts = b.first_ts := by
  induction ts generalizing b with
  | nil => rfl
  | cons t ts ih => rw [List.foldl_cons, ih, bufferAdd_some_first_ts]

theorem bufferFold_count (cfg : DebounceCfg) (b : BufState) (ts : List ℚ) :
    (ts.foldl (fun b t => bufferAdd cfg (some b) t) b).count = b.count + ts.length := by
  induction ts generalizing b with
  | nil => rfl
  | cons t ts ih =>
      rw [List.foldl_cons, ih, bufferAdd_some_count, List.length_cons]
      omega

theorem calculate_next_delay_many (cfg : DebounceCfg) (n : ℕ) (now first_ts : ℚ)
    (h1 : ¬(cfg.maxSeconds - (now - first_ts) ≤ 0)) (h2 : ¬(n ≤ 1)) :
    calculate_next_delay cfg n now first_ts
      = min cfg.extendSeconds (cfg.maxSeconds - (now - first_ts)) := by
  unfold calculate_next_delay
  simp only [if_neg h1, if_neg h2]

theorem calculate_next_delay_one (cfg : DebounceCfg) (now first_ts : ℚ)
    (h1 : ¬(cfg.maxSeconds - (now - first_ts) ≤ 0)) :
    calculate_next_delay cfg 1 now first_ts
      = min cfg.initialSeconds (cfg.maxSeconds - (now - first_ts)) := by
  unfold calculate_next_delay
  simp only [if_neg h1, if_pos (by norm_num : (1 : ℕ) ≤ 1)]

theorem intercalate_singleton (sep b : String) : String.intercalate sep [b] = b := rfl

/-- C3 (amended): for messages buffered together at increasing times
`t0, …, tl` with `tl - t0 < max_seconds`, the rescheduled timer of a buffer
holding **at least two** messages fires at
`min(t0 + max_seconds, tl + extend_seconds)`; a buffer holding a **single**
message fires at `t0 + min(initial_seconds, max_seconds)` instead; and the
aggregated body equals the trimmed non-blank bodies joined with `" | "` in
arrival order (so a single body is passed through trimmed). -/
theorem aggregation_window_and_body
    (cfg : DebounceCfg) (t0 tl : ℚ) (mid : List ℚ) (bodies bs : List String)
    (hmax : 0 < cfg.maxSeconds)
    (hchain : List.Chain (fun a b => a < b) t0 (mid ++ [tl]))
    (hbuffered : bufferedTogether cfg (bufferAdd cfg Option.none t0) (mid ++ [tl]))
    (hcap : tl - t0 < cfg.maxSeconds)
    (hbs : (bodies.map pyStrip).filter (fun s => s ≠ "") = bs)
    (hne : bs ≠ []) :
    (bufferRun cfg t0 (mid ++ [tl])).fireAt
        = min (t0 + cfg.maxSeconds) (tl + cfg.extendSeconds) ∧
    (bufferRun cfg t0 []).fireAt = t0 + min cfg.initialSeconds cfg.maxSeconds ∧
    aggregate_body bodies = some (String.intercalate " | " bs) := by
  refine ⟨?_, ?_, ?_⟩
  · unfold bufferRun
    rw [List.foldl_append, List.foldl_cons, List.foldl_nil, bufferAdd_some_fireAt,
        bufferFold_first_ts]
    have hbase : (bufferAdd cfg Option.none t0).first_ts = t0 := rfl
    rw [hbase]
    have hcnt : (mid.foldl (fun b t => bufferAdd cfg (some b) t)
        (bufferAdd cfg Option.none t0)).count = 1 + mid.length := by
      rw [bufferFold_count]
      rfl
    rw [calculate_next_delay_many cfg _ tl t0 (by linarith) (by rw [hcnt]; omega)]
    have h3 : tl + (cfg.maxSeconds - (tl - t0)) = t0 + cfg.maxSeconds := by ring
    rw [← min_add_add_left, h3, min_comm]
  · unfold bufferRun
    rw [List.foldl_nil, bufferAdd_none_fireAt]
    have h1 : ¬(cfg.maxSeconds - (t0 - t0) ≤ 0) := by
      rw [sub_self, sub_zero]
      linarith
    rw [calculate_next_delay_one cfg t0 t0 h1, sub_self, sub_zero]
  · subst hbs
    unfold aggregate_body
    cases hfe : (bodies.map pyStrip).filter (fun s => s ≠ "") with
    | nil => exact absurd hfe hne
    | cons b rest =>
        cases rest with
        | nil => simp [intercalate_singleton]
        | cons b2 rest2 => simp

/-- C3 witness: three messages "Oi", "Quero", "comprar" arriving 1 s apart
under the default settings fire 3 s after the last one and aggregate to
`"Oi | Quero | comprar"`. -/
theorem aggregation_window_and_body_witness :
    ((0 : ℚ) < (DebounceCfg.mk 5 3 10).maxSeconds ∧
     List.Chain (fun a b : ℚ => a < b) (0 : ℚ) ([1] ++ [2]) ∧
     bufferedTogether (DebounceCfg.mk 5 3 10)
       (bufferAdd (DebounceCfg.mk 5 3 10) Option.none 0) ([1] ++ [2]) ∧
     (2 : ℚ) - 0 < (DebounceCfg.mk 5 3 10).maxSeconds ∧
     ((["Oi", "Quero", "comprar"].map pyStrip).filter (fun s => s ≠ ""))
       = ["Oi", "Quero", "comprar"]) ∧
    ((bufferRun (DebounceCfg.mk 5 3 10) 0 ([1] ++ [2])).fireAt
        = min ((0 : ℚ) + (DebounceCfg.mk 5 3 10).maxSeconds)
            ((2 : ℚ) + (DebounceCfg.mk 5 3 10).extendSeconds) ∧
     (bufferRun (DebounceCfg.mk 5 3 10) 0 []).fireAt
        = (0 : ℚ) + min (DebounceCfg.mk 5 3 10).initialSeconds (DebounceCfg.mk 5 3 10).maxSeconds ∧
     aggregate_body ["Oi", "Quero", "comprar"]
        = some (String.intercalate " | " ["Oi", "Quero", "comprar"])) :=
  ⟨⟨by norm_num,
    by
      simp only [List.singleton_append, List.chain_cons, List.Chain.nil, and_true]
      norm_num,
    by
      refine ⟨?_, ?_, trivial⟩ <;>
        norm_num [bufferAdd, calculate_next_delay, min_def]
    , by norm_num, by decide⟩,
   aggregation_window_and_body (DebounceCfg.mk 5 3 10) 0 2 [1] ["Oi", "Quero", "comprar"]
     ["Oi", "Quero", "comprar"] (by norm_num)
     (by
       simp only [List.singleton_append, List.chain_cons, List.Chain.nil, and_true]
       norm_num)
     (by
       refine ⟨?_, ?_, trivial⟩ <;>
         norm_num [bufferAdd, calculate_next_delay, min_def])
     (by norm_num) (by decide) (by decide)⟩

/-- C3 counterexample: with the default configuration a buffer holding a
single message (body `"  hi  "`, arrival `t0 = 0`) fires at `t0 + 5`
seconds — not at `min(t0 + max, t0 + extend) = 3` as the claim's formula
states for every `N ≥ 1` — and its aggregated body is the trimmed `"hi"`,
not the body passed through unchanged. -/
theorem aggregation_single_message_counterexample :
    (bufferRun (DebounceCfg.mk 5 3 10) 0 []).fireAt = 5 ∧
    min ((0 : ℚ) + 10) ((0 : ℚ) + 3) = 3 ∧
    (5 : ℚ) ≠ 3 ∧
    aggregate_body ["  hi  "] = some "hi" ∧
    ("hi" : String) ≠ "  hi  " := by
  refine ⟨?_, by norm_num, by norm_num, by decide, by decide⟩
  norm_num [bufferRun, bufferAdd, calculate_next_delay, min_def]

/-! ### C4 — handoff detection -/

mutual

theorem is_truthy_eq_truthySpec : ∀ v, is_truthy v = truthySpec v
  | .none => rfl
  | .bool b => by cases b <;> rfl
  | .str _ => rfl
  | .int _ => rfl
  | .list _ => rfl
  | .dict d => is_truthyDict_eq_truthySpecDict d

theorem is_truthyDict_eq_truthySpecDict :
    ∀ d, is_truthyDict d = truthySpecDict d
  | [] => rfl
  | kv :: rest => by
      show (is_truthy kv.2 || is_truthyDict rest)
          = (truthySpec kv.2 || truthySpecDict rest)
      rw [is_truthy_eq_truthySpec kv.2, is_truthyDict_eq_truthySpecDict rest]

end

theorem hint_match_eq (hints : List String) (t : String)
    (hh : ∀ h ∈ hints, h ≠ "") :
    hint_match hints t
      = hints.any (fun hint => normalize_for_exact_match t == hint) := by
  induction hints with
  | nil => rfl
  | cons h rest ih =>
      have hne : h ≠ "" := hh h (List.mem_cons_self _ _)
      have ih' := ih (fun x hx => hh x (List.mem_cons_of_mem _ hx))
      unfold hint_match at ih' ⊢
      simp only [List.any_cons, ih']
      have hb : (decide (h ≠ "")) = true := by simp [hne]
      rw [hb, Bool.true_and]

/-- C4 (amended): handoff is detected by `_handoff_from_cx` (invoked with
`allow_param = (status == "bot" and bool(DF_HANDOFF_PARAM))`) if and only
if (a) some response line, whitespace-normalized and case-folded, exactly
equals one of the configured (non-empty, pre-case-folded) hint phrases, or
(b) the conversation status is `bot`, a handoff-parameter name is
configured, and the parameter map carries that name with a truthy value —
truthy meaning boolean `true`, a string whose **whitespace-trimmed**
content equals `"true"` case-insensitively, or a mapping containing some
truthy value; numbers, lists and null are never truthy. -/
theorem handoff_detection_spec
    (texts : List String) (params : List (String × PValue)) (status : String)
    (st : Settings) (hh : ∀ h ∈ st.dfHandoffTextHints, h ≠ "") :
    handoff_from_cx texts params ((status == "bot") && st.dfHandoffParam ≠ "") st
      = detectSpec texts params status st := by
  unfold handoff_from_cx detectSpec
  have htext : hint_match st.dfHandoffTextHints
      = fun t => st.dfHandoffTextHints.any (fun hint => normalize_for_exact_match t == hint) :=
    funext (fun t => hint_match_eq _ t hh)
  rw [htext]
  congr 1
  cases hlk : alistGet params st.dfHandoffParam with
  | none =>
      cases status == "bot" <;> cases hp : (decide (st.dfHandoffParam ≠ "")) <;> simp
  | some v =>
      dsimp only
      rw [is_truthy_eq_truthySpec v]
      cases status == "bot" <;> cases hp : (decide (st.dfHandoffParam ≠ "")) <;>
        cases truthySpec v <;> simp

/-- C4 witness: the amended equivalence evaluated on a concrete response. -/
theorem handoff_detection_spec_witness :
    (∀ h ∈ settingsA.dfHandoffTextHints, h ≠ "") ∧
    handoff_from_cx ["ola"] [("handoff_request", PValue.str " True ")]
        ((("bot" : String) == "bot") && settingsA.dfHandoffParam ≠ "") settingsA
      = detectSpec ["ola"] [("handoff_request", PValue.str " True ")] "bot" settingsA :=
  ⟨by decide,
   handoff_detection_spec ["ola"] [("handoff_request", PValue.str " True ")] "bot"
     settingsA (by decide)⟩

/-- C4 counterexample: the parameter value `" true "` (whitespace around
`true`) is truthy for the code (which strips before comparing), so handoff
is detected, while the claim's characterization — a string equal to
`"true"` case-insensitively, with no trimming — calls it not truthy; the
claimed if-and-only-if fails on this input. -/
theorem handoff_detection_claim_counterexample :
    handoff_from_cx [] [("handoff_request", PValue.str " true ")]
        ((("bot" : String) == "bot") && settingsA.dfHandoffParam ≠ "") settingsA = true ∧
    detectClaimed [] [("handoff_request", PValue.str " true ")] "bot" settingsA = false := by
  refine ⟨by decide, by decide⟩

/-! ### C9 — retrying dispatchers -/

theorem cxRetryLoop_allTransient (e : GErr) (he : e.transient = true) (jitter : ℕ → ℚ)
    (attempts : ℕ) : ∀ n i, attempts - i = n → i < attempts →
    cxRetryLoop (fun _ => CxAttempt.exc e) jitter attempts i =
      (Except.error e,
       (List.range (attempts - 1 - i)).map (fun j => (2/5) * 2 ^ (i + j) + jitter (i + j))) := by
  intro n
  induction n with
  | zero => intro i h hi; omega
  | succ n ih =>
      intro i h hi
      rw [cxRetryLoop]
      dsimp only
      rw [if_pos he]
      by_cases hlast : i + 1 ≥ attempts
      · rw [dif_pos hlast]
        have hz : attempts - 1 - i = 0 := by omega
        rw [hz]
        simp
      · rw [dif_neg hlast]
        have ih' := ih (i + 1) (by omega) (by omega)
        rw [ih']
        have hk : attempts - 1 - i = (attempts - 1 - (i + 1)) + 1 := by omega
        rw [hk, List.range_succ_eq_map, List.map_cons, List.map_map]
        refine congrArg (Prod.mk (Except.error e)) ?_
        congr 1
        dsimp only
        refine List.map_congr_left (fun j _ => ?_)
        simp only [Function.comp_apply, Nat.succ_eq_add_one]
        have hidx : i + (j + 1) = i + 1 + j := by omega
        rw [hidx]

theorem postRetryLoop_allTransient (e : GErr) (he : e.transient = true) (backoff : ℚ)
    (attempts : ℕ) : ∀ n a, attempts - a = n → 1 ≤ a → a ≤ attempts →
    postRetryLoop (fun _ => PostAttempt.exc e) backoff attempts a =
      (Except.error e,
       (List.range (attempts - a)).map (fun j => backoff * 2 ^ (a - 1 + j))) := by
  intro n
  induction n with
  | zero =>
      intro a h h1 ha
      have hge : a ≥ attempts := by omega
      rw [postRetryLoop]
      dsimp only
      rw [dif_pos (Or.inr hge), h]
      simp
  | succ n ih =>
      intro a h h1 ha
      rw [postRetryLoop]
      dsimp only
      have hcond : ¬(¬e.transient = true ∨ a ≥ attempts) := by
        push_neg
        exact ⟨he, by omega⟩
      rw [dif_neg hcond]
      have ih' := ih (a + 1) (by omega) (by omega) (by omega)
      rw [ih']
      have hk : attempts - a = (attempts - (a + 1)) + 1 := by omega
      rw [hk, List.range_succ_eq_map, List.map_cons, List.map_map]
      refine congrArg (Prod.mk (Except.error e)) ?_
      congr 1
      dsimp only
      refine List.map_congr_left (fun j _ => ?_)
      simp only [Function.comp_apply, Nat.succ_eq_add_one]
      have hidx : a - 1 + (j + 1) = a + 1 - 1 + j := by omega
      rw [hidx]

/-- C9 (amended): the AI-backend dispatcher waits `0.4 * 2^i` seconds plus
the sampled random jitter (drawn from `uniform(0, 0.25)`) before retry
`i + 1`, with the base fixed at 0.4 (not configurable); the channel
dispatcher waits `backoff * 2^i` with a configurable base (default 0.3) and
**no jitter**.  Both cap attempts at a configurable count (clamped to at
least 1), retry only their defined transient error kinds — a non-transient
error is raised at once — and exhausting all attempts re-raises the last
transient error to the caller. -/
theorem retry_dispatchers
    (attempts : ℕ) (hatt : 1 ≤ attempts) (jitter : ℕ → ℚ)
    (e ep : GErr) (he : e.transient = true) (hep : ep.transient = false)
    (texts : List String) (params : List (String × PValue))
    (aInt : Int) (haInt : 1 ≤ aInt) (backoff : ℚ) (hb : 0 ≤ backoff) :
    detect_intent_retry (fun _ => CxAttempt.exc e) jitter attempts =
      (Except.error e,
       (List.range (attempts - 1)).map (fun i => (2/5) * 2 ^ i + jitter i)) ∧
    detect_intent_retry (fun _ => CxAttempt.ok texts params) jitter attempts =
      (Except.ok (texts, params), []) ∧
    detect_intent_retry (fun _ => CxAttempt.exc ep) jitter attempts =
      (Except.error ep, []) ∧
    post_with_retry (fun _ => PostAttempt.exc e) aInt backoff =
      (Except.error e,
       (List.range (aInt.toNat - 1)).map (fun i => backoff * 2 ^ i)) ∧
    post_with_retry (fun _ => PostAttempt.exc ep) aInt backoff =
      (Except.error ep, []) := by
  have hmaxa : max 1 attempts = attempts := Nat.max_eq_right hatt
  have hmaxi : max 1 aInt = aInt := max_eq_right haInt
  have hmaxb : max (0 : ℚ) backoff = backoff := max_eq_right hb
  have htn : 1 ≤ aInt.toNat := by omega
  refine ⟨?_, ?_, ?_, ?_, ?_⟩
  · unfold detect_intent_retry
    rw [hmaxa]
    have := cxRetryLoop_allTransient e he jitter attempts attempts 0 (by omega) (by omega)
    rw [this]
    simp
  · unfold detect_intent_retry
    rw [cxRetryLoop]
  · unfold detect_intent_retry
    rw [cxRetryLoop]
    dsimp only
    rw [if_neg (by simp [hep])]
  · unfold post_with_retry get_retry_settings
    dsimp only
    rw [hmaxi, hmaxb]
    have := postRetryLoop_allTransient e he backoff aInt.toNat (aInt.toNat - 1) 1
      (by omega) (by omega) (by omega)
    rw [this]
    simp
  · unfold post_with_retry get_retry_settings
    dsimp only
    rw [hmaxi, hmaxb, postRetryLoop]
    dsimp only
    rw [dif_pos (Or.inl (by simp [hep]))]

/-- C9 witness: the dispatcher wait sequences on concrete runs. -/
theorem retry_dispatchers_witness :
    detect_intent_retry (fun _ => CxAttempt.exc (GErr.mk true 7)) (fun _ => 1/10) 3 =
      (Except.error (GErr.mk true 7),
       (List.range (3 - 1)).map (fun i => (2/5) * 2 ^ i + (1 : ℚ)/10)) ∧
    post_with_retry (fun _ => PostAttempt.exc (GErr.mk true 7)) 2 (3/10) =
      (Except.error (GErr.mk true 7),
       (List.range ((2 : Int).toNat - 1)).map (fun i => (3/10 : ℚ) * 2 ^ i)) :=
  ⟨(retry_dispatchers 3 (by norm_num) (fun _ => 1/10) (GErr.mk true 7) (GErr.mk false 8)
      rfl rfl [] [] 2 (by norm_num) (3/10) (by norm_num)).1,
   (retry_dispatchers 3 (by norm_num) (fun _ => 1/10) (GErr.mk true 7) (GErr.mk false 8)
      rfl rfl [] [] 2 (by norm_num) (3/10) (by norm_num)).2.2.2.1⟩

/-- C9 counterexample: the channel dispatcher's wait before its single
retry (default configuration: 2 attempts, base 0.3) is exactly `0.3`
seconds — `base * 2^0` with **no** added random jitter — contradicting the
claim that both dispatchers add a small random jitter to every retried
attempt's wait. -/
theorem retry_channel_no_jitter_counterexample :
    (post_with_retry (fun _ => PostAttempt.exc (GErr.mk true 9)) 2 (3/10)).2 = [3/10] ∧
    ∀ j : ℚ, 0 < j → (3/10 : ℚ) ≠ (3/10) * 2 ^ (0 : ℕ) + j := by
  constructor
  · have := (retry_dispatchers 2 (by norm_num) (fun _ => 0) (GErr.mk true 9)
      (GErr.mk false 8) rfl rfl [] [] 2 (by norm_num) (3/10) (by norm_num)).2.2.2.1
    rw [this]
    show List.map (fun i => (3:ℚ)/10 * 2 ^ i) (List.range 1) = [3/10]
    rw [show List.range 1 = [0] from rfl]
    norm_num
  · intro j hj
    norm_num
    linarith

/-! ### C8 — exhausted AI-backend retries fall back once -/

/-- C8: when the AI-backend call fails after its bounded attempts, the
turn processor records the generic stability-fallback reply through the
idempotent gate under the deterministic id `bot:<inbound id>`, sends it
only when that record was fresh, and stops — the run performs exactly the
backend attempt, the gate check and the (at most one) send: no handoff
detection, no state transition, no further processing; and re-running the
turn against the resulting store sends nothing. -/
theorem cx_failure_fallback
    (st : Settings) (inp : TurnInput) (orc : Oracles) (store : Store) (e : GErr)
    (hcx : orc.cx = Except.error e)
    (hstatus : statusOf inp.conv_data = "bot")
    (hha : inp.conv_data.handoff_active = false)
    (hmedia : inp.media_url = Option.none) :
    process_message_async st inp orc store =
      ((add_message_if_new store inp.conversation_id
          ("bot:" ++ pyOrStr inp.sid inp.session_id) "out" "bot" FALLBACK_STABILITY_TEXT
          Option.none Option.none).2,
       [Event.cxDetectIntent inp.session_id inp.body
          (buildQueryParams inp.conversation_id
            (resetParamsFor st false inp.conv_data.session_parameters)),
        Event.addMsg inp.conversation_id ("bot:" ++ pyOrStr inp.sid inp.session_id)
          (add_message_if_new store inp.conversation_id
            ("bot:" ++ pyOrStr inp.sid inp.session_id) "out" "bot" FALLBACK_STABILITY_TEXT
            Option.none Option.none).1] ++
       (if (add_message_if_new store inp.conversation_id
            ("bot:" ++ pyOrStr inp.sid inp.session_id) "out" "bot" FALLBACK_STABILITY_TEXT
            Option.none Option.none).1
        then [Event.sendText inp.frm FALLBACK_STABILITY_TEXT] else [])) ∧
    ((process_message_async st inp orc
        (process_message_async st inp orc store).1).2).countP (fun e => isSendEv e) = 0 := by
  have heq : process_message_async st inp orc store =
      ((add_message_if_new store inp.conversation_id
          ("bot:" ++ pyOrStr inp.sid inp.session_id) "out" "bot" FALLBACK_STABILITY_TEXT
          Option.none Option.none).2,
       [Event.cxDetectIntent inp.session_id inp.body
          (buildQueryParams inp.conversation_id
            (resetParamsFor st false inp.conv_data.session_parameters)),
        Event.addMsg inp.conversation_id ("bot:" ++ pyOrStr inp.sid inp.session_id)
          (add_message_if_new store inp.conversation_id
            ("bot:" ++ pyOrStr inp.sid inp.session_id) "out" "bot" FALLBACK_STABILITY_TEXT
            Option.none Option.none).1] ++
       (if (add_message_if_new store inp.conversation_id
            ("bot:" ++ pyOrStr inp.sid inp.session_id) "out" "bot" FALLBACK_STABILITY_TEXT
            Option.none Option.none).1
        then [Event.sendText inp.frm FALLBACK_STABILITY_TEXT] else [])) := by
    unfold process_message_async pmaAudio pmaTail pmaRecordSend
    simp only [hstatus, hha, hmedia, hcx]
    simp
  refine ⟨heq, ?_⟩
  obtain ⟨m, hm⟩ := add_message_if_new_key_present store inp.conversation_id
    ("bot:" ++ pyOrStr inp.sid inp.session_id) "out" "bot" FALLBACK_STABILITY_TEXT
    Option.none Option.none (bot_id_ne_empty _)
  apply pma_send_count_of_out_exists st inp orc _ m
  rw [heq]
  exact hm

/-- C8 witness: a failed backend call on a concrete store, re-run against
the post-fallback store, sends nothing the second time. -/
theorem cx_failure_fallback_witness :
    ((process_message_async settingsA inpB orcErr
        (process_message_async settingsA inpB orcErr storeC).1).2).countP
      (fun e => isSendEv e) = 0 :=
  (cx_failure_fallback settingsA inpB orcErr storeC (GErr.mk true 1) rfl (by decide)
    rfl rfl).2

/-! ### C6 — handoff-state suppression gate and the force-bot override -/

/-- C6: for a turn whose conversation snapshot is in a human-handled state
(status `pending_handoff`, `claimed` or `active`, or `handoff_active` set):
unless both the global handoff-disable flag and the force-bot flag are set,
the turn processor returns the store unchanged with an empty effect trace —
no AI-backend call and no reply; when both flags are set, the run's first
effect is the force-bot `update_conversation` (status `bot`, handoff fields
cleared), it still performs exactly one AI-backend call, and the final
conversation record has status `"bot"` with `handoff_active` cleared and
the assignee fields null. -/
theorem handoff_state_gate (st : Settings) (inp : TurnInput) (orc : Oracles)
    (store : Store) (c : Conv)
    (hsup : statusOf inp.conv_data = "pending_handoff" ∨
      statusOf inp.conv_data = "claimed" ∨ statusOf inp.conv_data = "active" ∨
      inp.conv_data.handoff_active = true)
    (hc : alistGet store.convs inp.conversation_id = some c) :
    (¬(st.featureDisableHandoff = true ∧ st.featureForceBotWhenHandoffDisabled = true) →
      process_message_async st inp orc store = (store, [])) ∧
    (st.featureDisableHandoff = true → st.featureForceBotWhenHandoffDisabled = true →
      ((process_message_async st inp orc store).2).head?
          = some (Event.updateConv inp.conversation_id UpdateTag.forceBot) ∧
      ((process_message_async st inp orc store).2).countP (fun e => isCxEv e) = 1 ∧
      ∃ c2, alistGet ((process_message_async st inp orc store).1).convs
          inp.conversation_id = some c2 ∧
        c2.status = "bot" ∧ c2.handoff_active = false ∧
        c2.assignee = Option.none ∧ c2.assignee_name = Option.none) := by
  have hsupb : (statusOf inp.conv_data == "pending_handoff" ||
      statusOf inp.conv_data == "claimed" || statusOf inp.conv_data == "active" ||
      inp.conv_data.handoff_active) = true := by
    rcases hsup with h | h | h | h <;> simp [h]
  constructor
  · intro hndf
    have hdf : (st.featureDisableHandoff && st.featureForceBotWhenHandoffDisabled) = false := by
      cases hd : st.featureDisableHandoff <;>
        cases hf : st.featureForceBotWhenHandoffDisabled <;> simp_all
    unfold process_message_async
    simp [hsupb, hdf]
  · intro hD hF
    have hrun : process_message_async st inp orc store =
        pmaTail st inp orc "bot"
          (resetParamsFor st false inp.conv_data.session_parameters)
          (pmaAudio st inp orc
            (updateConvWith store inp.conversation_id applyBotReset)
            [Event.updateConv inp.conversation_id UpdateTag.forceBot]).1
          (pmaAudio st inp orc
            (updateConvWith store inp.conversation_id applyBotReset)
            [Event.updateConv inp.conversation_id UpdateTag.forceBot]).2.1
          (pmaAudio st inp orc
            (updateConvWith store inp.conversation_id applyBotReset)
            [Event.updateConv inp.conversation_id UpdateTag.forceBot]).2.2 := by
      unfold process_message_async
      simp only [hsupb, hD, hF]
      simp
    refine ⟨?_, ?_, ?_⟩
    · rw [hrun]
      rcases pmaAudio_events_form st inp orc
          (updateConvWith store inp.conversation_id applyBotReset)
          [Event.updateConv inp.conversation_id UpdateTag.forceBot] with h | h
      · rw [h]
        exact pmaTail_head _ _ _ _ _ _ _ _ _
      · rw [h, List.singleton_append]
        exact pmaTail_head _ _ _ _ _ _ _ _ _
    · rw [hrun, pmaTail_cx_count, pmaAudio_countP _ _ _ _ _ _ rfl]
      simp [isCxEv]
    · rw [hrun]
      obtain ⟨c3, hc3, hst3, hha3, ha3, han3, hsp3⟩ :=
        pmaAudio_conv_fields st inp orc
          (updateConvWith store inp.conversation_id applyBotReset)
          [Event.updateConv inp.conversation_id UpdateTag.forceBot]
          (applyBotReset c) (updateConvWith_lookup _ _ _ c hc)
      obtain ⟨c2, hc2, hst2, hha2, ha2, han2⟩ :=
        pmaTail_conv_fields_disabled st inp orc "bot"
          (resetParamsFor st false inp.conv_data.session_parameters)
          _ _ _ c3 hD hc3
      exact ⟨c2, hc2, (by rw [hst2, hst3]; rfl), (by rw [hha2, hha3]; rfl),
        (by rw [ha2, ha3]; rfl), (by rw [han2, han3]; rfl)⟩

/-- C6 witness: a `pending_handoff` conversation is suppressed outright
under the default flags, while with both overrides set the run starts with
the force-bot transition and performs exactly one backend call. -/
theorem handoff_state_gate_witness :
    process_message_async settingsA inpP orcB storeP = (storeP, []) ∧
    ((process_message_async settingsF inpP orcB storeP).2).head?
        = some (Event.updateConv "+551" UpdateTag.forceBot) ∧
    ((process_message_async settingsF inpP orcB storeP).2).countP
        (fun e => isCxEv e) = 1 :=
  ⟨(handoff_state_gate settingsA inpP orcB storeP convP
      (Or.inl (by decide)) rfl).1 (by decide),
   ((handoff_state_gate settingsF inpP orcB storeP convP
      (Or.inl (by decide)) rfl).2 rfl rfl).1,
   ((handoff_state_gate settingsF inpP orcB storeP convP
      (Or.inl (by decide)) rfl).2 rfl rfl).2.1⟩

/-! ### C7 — resolved reopen clears the backend handoff flags -/

theorem qpfold_get_of_not_mem (sp : List (String × Option String))
    (acc : List (String × StructVal)) (k : String)
    (hk : ¬ k ∈ sp.map Prod.fst) :
    alistGet (sp.foldl (fun acc kv =>
      dictSet acc kv.1
        (match kv.2 with
         | Option.none => StructVal.null
         | some s => StructVal.s s)) acc) k = alistGet acc k := by
  induction sp generalizing acc with
  | nil => rfl
  | cons kv rest ih =>
      simp only [List.map_cons, List.mem_cons] at hk
      push_neg at hk
      rw [List.foldl_cons, ih _ hk.2, alistGet_dictSet,
        if_neg (fun h => hk.1 h.symm)]

theorem qpfold_get_of_mem (sp : List (String × Option String))
    (acc : List (String × StructVal)) (k : String) (v : Option String)
    (hmem : (k, v) ∈ sp) (hnd : (sp.map Prod.fst).Nodup) :
    alistGet (sp.foldl (fun acc kv =>
      dictSet acc kv.1
        (match kv.2 with
         | Option.none => StructVal.null
         | some s => StructVal.s s)) acc) k
      = some (v.elim StructVal.null StructVal.s) := by
  induction sp generalizing acc with
  | nil => cases hmem
  | cons kv rest ih =>
      rw [List.foldl_cons]
      rcases List.mem_cons.mp hmem with heq | hmem2
      · have hk1 : kv.1 = k := by rw [← heq]
        have hk2 : kv.2 = v := by rw [← heq]
        have hnin : ¬ k ∈ rest.map Prod.fst := by
          simp only [List.map_cons, List.nodup_cons] at hnd
          rw [← hk1]
          exact hnd.1
        rw [qpfold_get_of_not_mem rest _ k hnin, hk1, hk2]
        cases v <;> exact alistGet_dictSet_self _ _ _
      · simp only [List.map_cons, List.nodup_cons] at hnd
        exact ih _ hmem2 hnd.2

/-- A session parameter bound once in the reset dict surfaces in the
query-parameter struct `detect_intent_text` builds (`None` as a protobuf
null, a string as itself). -/
theorem buildQueryParams_get (uid : String) (sp : List (String × Option String))
    (k : String) (v : Option String)
    (hmem : (k, v) ∈ sp) (hnd : (sp.map Prod.fst).Nodup) :
    alistGet (buildQueryParams uid sp) k
      = some (v.elim StructVal.null StructVal.s) := by
  unfold buildQueryParams
  have hne : sp ≠ [] := by rintro rfl; cases hmem
  rw [if_pos (by simp [hne])]
  exact qpfold_get_of_mem sp _ k v hmem hnd

/-- The first two effects of a `pmaTail` run started on a one-event trace:
the incoming event, then the AI-backend call with the built query
parameters. -/
theorem pmaTail_events_take_two (st : Settings) (inp : TurnInput) (orc : Oracles)
    (status2 : String) (rp : List (String × Option String)) (body1 : String)
    (s3 : Store) (e : Event) :
    ((pmaTail st inp orc status2 rp body1 s3 [e]).2).take 2 =
      [e, Event.cxDetectIntent inp.session_id body1
        (buildQueryParams inp.conversation_id rp)] := by
  unfold pmaTail pmaRecordSend
  dsimp only
  rcases orc.cx with er | ⟨texts, params⟩ <;> dsimp only
  · repeat' split
    all_goals simp
  · repeat' split
    all_goals simp

/-- C7: a turn arriving while the conversation snapshot is `resolved` (and
outside the human-handled gate, with no audio media, a non-empty configured
handoff parameter distinct from `user_name`): the run first performs the
reopen-to-`bot` `update_conversation` (status `bot`, handoff fields
cleared) and only then the AI-backend call; that call's query parameters
bind the configured handoff parameter, `handoff_request` and
`handoff_requested` to explicit protobuf nulls; and a saved user
display-name session parameter, when present as a string, is re-asserted
as `user_name` in the same call. -/
theorem resolved_reopen_clears (st : Settings) (inp : TurnInput) (orc : Oracles)
    (store : Store)
    (hstatus : statusOf inp.conv_data = "resolved")
    (hha : inp.conv_data.handoff_active = false)
    (hmedia : inp.media_url = Option.none)
    (hp1 : st.dfHandoffParam ≠ "")
    (hp2 : st.dfHandoffParam ≠ "user_name") :
    process_message_async st inp orc store =
      pmaTail st inp orc "bot"
        (resetParamsFor st true inp.conv_data.session_parameters) inp.body
        (updateConvWith store inp.conversation_id applyBotReset)
        [Event.updateConv inp.conversation_id UpdateTag.resolvedReopen] ∧
    ((process_message_async st inp orc store).2).take 2 =
      [Event.updateConv inp.conversation_id UpdateTag.resolvedReopen,
       Event.cxDetectIntent inp.session_id inp.body
         (buildQueryParams inp.conversation_id
           (resetParamsFor st true inp.conv_data.session_parameters))] ∧
    alistGet (buildQueryParams inp.conversation_id
        (resetParamsFor st true inp.conv_data.session_parameters))
      st.dfHandoffParam = some StructVal.null ∧
    alistGet (buildQueryParams inp.conversation_id
        (resetParamsFor st true inp.conv_data.session_parameters))
      "handoff_request" = some StructVal.null ∧
    alistGet (buildQueryParams inp.conversation_id
        (resetParamsFor st true inp.conv_data.session_parameters))
      "handoff_requested" = some StructVal.null ∧
    (∀ s, savedUserName inp.conv_data.session_parameters = some s →
      alistGet (buildQueryParams inp.conversation_id
          (resetParamsFor st true inp.conv_data.session_parameters))
        "user_name" = some (StructVal.s s)) := by
  have hfacts :
      (st.dfHandoffParam, (Option.none : Option String))
          ∈ resetParamsFor st true inp.conv_data.session_parameters ∧
      ("handoff_request", (Option.none : Option String))
          ∈ resetParamsFor st true inp.conv_data.session_parameters ∧
      ("handoff_requested", (Option.none : Option String))
          ∈ resetParamsFor st true inp.conv_data.session_parameters ∧
      (∀ s, savedUserName inp.conv_data.session_parameters = some s →
        ("user_name", some s)
          ∈ resetParamsFor st true inp.conv_data.session_parameters) ∧
      ((resetParamsFor st true inp.conv_data.session_parameters).map
        Prod.fst).Nodup := by
    by_cases h1 : st.dfHandoffParam = "handoff_request"
    · cases hname : savedUserName inp.conv_data.session_parameters with
      | none =>
          refine ⟨?_, ?_, ?_, ?_, ?_⟩ <;>
            simp [resetParamsFor, dictSet, hp1, h1, hname]
      | some s =>
          refine ⟨?_, ?_, ?_, ?_, ?_⟩ <;>
            simp [resetParamsFor, dictSet, hp1, h1, hname]
    · by_cases h2 : st.dfHandoffParam = "handoff_requested"
      · cases hname : savedUserName inp.conv_data.session_parameters with
        | none =>
            refine ⟨?_, ?_, ?_, ?_, ?_⟩ <;>
              simp [resetParamsFor, dictSet, hp1, h1, h2, hname]
        | some s =>
            refine ⟨?_, ?_, ?_, ?_, ?_⟩ <;>
              simp [resetParamsFor, dictSet, hp1, h1, h2, hname, hp2]
      · cases hname : savedUserName inp.conv_data.session_parameters with
        | none =>
            refine ⟨?_, ?_, ?_, ?_, ?_⟩ <;>
              simp [resetParamsFor, dictSet, hp1, h1, h2, hname, hp2]
        | some s =>
            refine ⟨?_, ?_, ?_, ?_, ?_⟩ <;>
              simp [resetParamsFor, dictSet, hp1, h1, h2, hname, hp2]
  obtain ⟨f1, f2, f3, f4, f5⟩ := hfacts
  have hrun : process_message_async st inp orc store =
      pmaTail st inp orc "bot"
        (resetParamsFor st true inp.conv_data.session_parameters) inp.body
        (updateConvWith store inp.conversation_id applyBotReset)
        [Event.updateConv inp.conversation_id UpdateTag.resolvedReopen] := by
    unfold process_message_async pmaAudio
    simp only [hstatus, hha, hmedia]
    simp
  refine ⟨hrun, ?_, ?_, ?_, ?_, ?_⟩
  · rw [hrun]
    exact pmaTail_events_take_two _ _ _ _ _ _ _ _
  · exact buildQueryParams_get _ _ _ _ f1 f5
  · exact buildQueryParams_get _ _ _ _ f2 f5
  · exact buildQueryParams_get _ _ _ _ f3 f5
  · intro s hs
    exact buildQueryParams_get _ _ _ _ (f4 s hs) f5

/-- C7 witness: a `resolved` conversation holding a saved display name,
under the sample configuration: the run reopens to `bot` before the
backend call, the call's parameters null out `handoff_request` and
`handoff_requested`, and `user_name` is re-asserted as `"Ana"`. -/
theorem resolved_reopen_clears_witness :
    ((process_message_async settingsA inpR orcB storeR).2).take 2 =
      [Event.updateConv "+551" UpdateTag.resolvedReopen,
       Event.cxDetectIntent "551" "Oi"
         (buildQueryParams "+551"
           (resetParamsFor settingsA true convR.session_parameters))] ∧
    alistGet (buildQueryParams "+551"
        (resetParamsFor settingsA true convR.session_parameters))
      "handoff_request" = some StructVal.null ∧
    alistGet (buildQueryParams "+551"
        (resetParamsFor settingsA true convR.session_parameters))
      "handoff_requested" = some StructVal.null ∧
    alistGet (buildQueryParams "+551"
        (resetParamsFor settingsA true convR.session_parameters))
      "user_name" = some (StructVal.s "Ana") :=
  ⟨(resolved_reopen_clears settingsA inpR orcB storeR (by decide) rfl rfl
      (by decide) (by decide)).2.1,
   (resolved_reopen_clears settingsA inpR orcB storeR (by decide) rfl rfl
      (by decide) (by decide)).2.2.2.1,
   (resolved_reopen_clears settingsA inpR orcB storeR (by decide) rfl rfl
      (by decide) (by decide)).2.2.2.2.1,
   (resolved_reopen_clears settingsA inpR orcB storeR (by decide) rfl rfl
      (by decide) (by decide)).2.2.2.2.2 "Ana" (by decide)⟩

/-! ### C5 — the handoff-requested branch -/

/-- With the outbound id `bot:<inbound id>` not yet stored, the
record-and-send step creates the record and sends the reply. -/
theorem pmaRecordSend_creates (inp : TurnInput) (reply : String) (s5 : Store)
    (ev5 : List Event)
    (hout : alistGet s5.msgs
      (inp.conversation_id, "bot:" ++ pyOrStr inp.sid inp.session_id) = Option.none) :
    pmaRecordSend inp reply s5 ev5 =
      (Store.mk s5.convs
        (dictSet s5.msgs (inp.conversation_id, "bot:" ++ pyOrStr inp.sid inp.session_id)
          (mkMsg ("bot:" ++ pyOrStr inp.sid inp.session_id) "out" "bot" reply
            Option.none Option.none))
        s5.fresh,
       ev5 ++ [Event.addMsg inp.conversation_id
           ("bot:" ++ pyOrStr inp.sid inp.session_id) true,
         Event.sendText inp.frm reply]) := by
  unfold pmaRecordSend
  dsimp only
  rw [add_message_if_new_creates _ _ _ _ _ _ _ _ (bot_id_ne_empty _) hout]
  simp

/-- The handoff-requested branch of the reply tail, on a fresh outbound id:
with the feature disabled, the reply is the handoff-disabled chain,
recorded and sent; with the feature enabled, the conversation performs the
`pending_handoff` transition and the acknowledgement chain is recorded and
sent. -/
theorem pmaTail_handoff_run (st : Settings) (inp : TurnInput) (orc : Oracles)
    (status2 : String) (rp : List (String × Option String)) (body1 : String)
    (s3 : Store) (ev3 : List Event) (texts : List String)
    (params : List (String × PValue)) (c : Conv)
    (horc : orc.cx = Except.ok (texts, params))
    (hreq : handoff_from_cx texts params
      (status2 == "bot" && st.dfHandoffParam ≠ "") st = true)
    (hc : alistGet s3.convs inp.conversation_id = some c)
    (hout : alistGet s3.msgs
      (inp.conversation_id, "bot:" ++ pyOrStr inp.sid inp.session_id) = Option.none) :
    (st.featureDisableHandoff = true →
      (∃ m, alistGet ((pmaTail st inp orc status2 rp body1 s3 ev3).1).msgs
          (inp.conversation_id, "bot:" ++ pyOrStr inp.sid inp.session_id) = some m ∧
        m.text = pyOrStr st.handoffDisabledText
          (pyOrStr (join_bot_texts texts)
            (pyOrStr st.handoffAckText FALLBACK_STABILITY_TEXT))) ∧
      Event.sendText inp.frm
          (pyOrStr st.handoffDisabledText
            (pyOrStr (join_bot_texts texts)
              (pyOrStr st.handoffAckText FALLBACK_STABILITY_TEXT)))
        ∈ (pmaTail st inp orc status2 rp body1 s3 ev3).2) ∧
    (st.featureDisableHandoff = false →
      (∃ c2, alistGet ((pmaTail st inp orc status2 rp body1 s3 ev3).1).convs
          inp.conversation_id = some c2 ∧
        c2.status = "pending_handoff" ∧ c2.handoff_active = false ∧
        c2.assignee = Option.none ∧ c2.assignee_name = Option.none ∧
        c2.pending_since = true) ∧
      (∃ m, alistGet ((pmaTail st inp orc status2 rp body1 s3 ev3).1).msgs
          (inp.conversation_id, "bot:" ++ pyOrStr inp.sid inp.session_id) = some m ∧
        m.text = pyOrStr (join_bot_texts texts)
          (pyOrStr st.handoffAckText FALLBACK_STABILITY_TEXT)) ∧
      Event.sendText inp.frm
          (pyOrStr (join_bot_texts texts)
            (pyOrStr st.handoffAckText FALLBACK_STABILITY_TEXT))
        ∈ (pmaTail st inp orc status2 rp body1 s3 ev3).2) := by
  constructor
  · intro hD
    unfold pmaTail
    dsimp only
    rw [horc]
    dsimp only
    rw [if_pos hreq, if_pos hD]
    by_cases hps : params = []
    · rw [if_neg (fun h => h hps), if_neg (fun h => h hps)]
      rw [pmaRecordSend_creates _ _ _ _ hout]
      refine ⟨⟨_, alistGet_dictSet_self _ _ _, rfl⟩, ?_⟩
      simp
    · rw [if_pos hps, if_pos hps]
      rw [pmaRecordSend_creates _ _ _ _
        (by rw [updateConvWith_msgs]; exact hout)]
      refine ⟨⟨_, alistGet_dictSet_self _ _ _, rfl⟩, ?_⟩
      simp
  · intro hD
    unfold pmaTail
    dsimp only
    rw [horc]
    dsimp only
    rw [if_pos hreq, if_neg (show ¬(st.featureDisableHandoff = true) by simp [hD])]
    by_cases hps : params = []
    · rw [if_neg (fun h => h hps), if_neg (fun h => h hps)]
      rw [pmaRecordSend_creates _ _ _ _
        (by rw [updateConvWith_msgs]; exact hout)]
      refine ⟨⟨applyPendingHandoff c,
          updateConvWith_lookup _ _ _ c hc, rfl, rfl, rfl, rfl, rfl⟩,
        ⟨_, alistGet_dictSet_self _ _ _, rfl⟩, ?_⟩
      simp
    · rw [if_pos hps, if_pos hps]
      rw [pmaRecordSend_creates _ _ _ _
        (by rw [updateConvWith_msgs, updateConvWith_msgs]; exact hout)]
      refine ⟨⟨applyPendingHandoff { c with session_parameters := params },
          updateConvWith_lookup _ _ _ _ (updateConvWith_lookup _ _ _ c hc),
          rfl, rfl, rfl, rfl, rfl⟩,
        ⟨_, alistGet_dictSet_self _ _ _, rfl⟩, ?_⟩
      simp

/-- C5: on a bot-status turn whose AI-backend response triggers handoff
detection, with a fresh outbound id: if handoff is globally disabled the
conversation's status and handoff fields are unchanged and the reply that
is recorded under `bot:<inbound id>` and sent is the configured
handoff-disabled text, falling back to the bot's own reply, then the
acknowledgement text, then the generic fallback; otherwise the
conversation transitions to `pending_handoff` with `handoff_active`
cleared, the assignee fields nulled and `pending_since` stamped, and the
recorded and sent reply is the bot's own reply, falling back to the
acknowledgement text, then the generic fallback. -/
theorem handoff_branch (st : Settings) (inp : TurnInput) (orc : Oracles)
    (store : Store) (c : Conv) (texts : List String)
    (params : List (String × PValue))
    (hcx : orc.cx = Except.ok (texts, params))
    (hstatus : statusOf inp.conv_data = "bot")
    (hha : inp.conv_data.handoff_active = false)
    (hmedia : inp.media_url = Option.none)
    (hreq : handoff_from_cx texts params
      (("bot" : String) == "bot" && st.dfHandoffParam ≠ "") st = true)
    (hc : alistGet store.convs inp.conversation_id = some c)
    (hout : alistGet store.msgs
      (inp.conversation_id, "bot:" ++ pyOrStr inp.sid inp.session_id) = Option.none) :
    (st.featureDisableHandoff = true →
      (∃ c2, alistGet ((process_message_async st inp orc store).1).convs
          inp.conversation_id = some c2 ∧ c2.status = c.status ∧
        c2.handoff_active = c.handoff_active ∧ c2.assignee = c.assignee ∧
        c2.assignee_name = c.assignee_name) ∧
      (∃ m, alistGet ((process_message_async st inp orc store).1).msgs
          (inp.conversation_id, "bot:" ++ pyOrStr inp.sid inp.session_id) = some m ∧
        m.text = pyOrStr st.handoffDisabledText
          (pyOrStr (join_bot_texts texts)
            (pyOrStr st.handoffAckText FALLBACK_STABILITY_TEXT))) ∧
      Event.sendText inp.frm
          (pyOrStr st.handoffDisabledText
            (pyOrStr (join_bot_texts texts)
              (pyOrStr st.handoffAckText FALLBACK_STABILITY_TEXT)))
        ∈ (process_message_async st inp orc store).2) ∧
    (st.featureDisableHandoff = false →
      (∃ c2, alistGet ((process_message_async st inp orc store).1).convs
          inp.conversation_id = some c2 ∧
        c2.status = "pending_handoff" ∧ c2.handoff_active = false ∧
        c2.assignee = Option.none ∧ c2.assignee_name = Option.none ∧
        c2.pending_since = true) ∧
      (∃ m, alistGet ((process_message_async st inp orc store).1).msgs
          (inp.conversation_id, "bot:" ++ pyOrStr inp.sid inp.session_id) = some m ∧
        m.text = pyOrStr (join_bot_texts texts)
          (pyOrStr st.handoffAckText FALLBACK_STABILITY_TEXT)) ∧
      Event.sendText inp.frm
          (pyOrStr (join_bot_texts texts)
            (pyOrStr st.handoffAckText FALLBACK_STABILITY_TEXT))
        ∈ (process_message_async st inp orc store).2) := by
  have hrun : process_message_async st inp orc store =
      pmaTail st inp orc "bot"
        (resetParamsFor st false inp.conv_data.session_parameters)
        inp.body store [] := by
    unfold process_message_async pmaAudio
    simp only [hstatus, hha, hmedia]
    simp
  have hmain := pmaTail_handoff_run st inp orc "bot"
    (resetParamsFor st false inp.conv_data.session_parameters) inp.body store []
    texts params c hcx hreq hc hout
  constructor
  · intro hD
    obtain ⟨hmsg, hsend⟩ := hmain.1 hD
    have hconv := pmaTail_conv_fields_disabled st inp orc "bot"
      (resetParamsFor st false inp.conv_data.session_parameters) inp.body store []
      c hD hc
    rw [hrun]
    exact ⟨hconv, hmsg, hsend⟩
  · intro hD
    obtain ⟨hconv, hmsg, hsend⟩ := hmain.2 hD
    rw [hrun]
    exact ⟨hconv, hmsg, hsend⟩

/-- C5 witness: the backend answers with a truthy `handoff_request`
parameter; under `settingsF` (handoff disabled) the conversation keeps its
fields and the handoff-disabled text is recorded, while under `settingsA`
(handoff enabled) the conversation moves to `pending_handoff` and the bot
reply is sent. -/
theorem handoff_branch_witness :
    (∃ c2, alistGet ((process_message_async settingsF inpB orcH storeC).1).convs
        inpB.conversation_id = some c2 ∧ c2.status = convB.status ∧
      c2.handoff_active = convB.handoff_active ∧ c2.assignee = convB.assignee ∧
      c2.assignee_name = convB.assignee_name) ∧
    (∃ m, alistGet ((process_message_async settingsF inpB orcH storeC).1).msgs
        (inpB.conversation_id, "bot:" ++ pyOrStr inpB.sid inpB.session_id) = some m ∧
      m.text = pyOrStr settingsF.handoffDisabledText
        (pyOrStr (join_bot_texts ["encaminhando"])
          (pyOrStr settingsF.handoffAckText FALLBACK_STABILITY_TEXT))) ∧
    (∃ c2, alistGet ((process_message_async settingsA inpB orcH storeC).1).convs
        inpB.conversation_id = some c2 ∧
      c2.status = "pending_handoff" ∧ c2.handoff_active = false ∧
      c2.assignee = Option.none ∧ c2.assignee_name = Option.none ∧
      c2.pending_since = true) ∧
    Event.sendText inpB.frm
        (pyOrStr (join_bot_texts ["encaminhando"])
          (pyOrStr settingsA.handoffAckText FALLBACK_STABILITY_TEXT))
      ∈ (process_message_async settingsA inpB orcH storeC).2 :=
  ⟨((handoff_branch settingsF inpB orcH storeC convB ["encaminhando"]
      [("handoff_request", PValue.bool true)] rfl (by decide) rfl rfl
      (by decide) rfl rfl).1 rfl).1,
   ((handoff_branch settingsF inpB orcH storeC convB ["encaminhando"]
      [("handoff_request", PValue.bool true)] rfl (by decide) rfl rfl
      (by decide) rfl rfl).1 rfl).2.1,
   ((handoff_branch settingsA inpB orcH storeC convB ["encaminhando"]
      [("handoff_request", PValue.bool true)] rfl (by decide) rfl rfl
      (by decide) rfl rfl).2 rfl).1,
   ((handoff_branch settingsA inpB orcH storeC convB ["encaminhando"]
      [("handoff_request", PValue.bool true)] rfl (by decide) rfl rfl
      (by decide) rfl rfl).2 rfl).2.2⟩

end Varizemed
